import Mathlib

/-!
Shallow embedding of tap_marketo/sync.py (the sync strategies of the
tap-marketo repository) together with theorems settling the frozen claims.

Modelling conventions:
  * Python values that flow through records, bookmarks and parameters are
    modelled by the inductive `Value` (None, str, int, float, bool).
  * ISO timestamps stay strings, exactly as in the Python code; the external
    pendulum library, the json module and the numeric constructors of Python
    are collaborator functions collected in the `Ext` structure.
  * The HTTP/export client (tap_marketo.client) is the external collaborator
    `Client`; `stream_export` hands back lines after CSV decoding (the csv
    module is outside the repository), so a raw line is a `List String`.
  * Stateful code runs in the monad `M`, which threads the single mutable
    state dict (singer bookmarks mutate it in place, so one global `TapState`
    is faithful) and records observable effects (record emission, state
    persistence, client calls, log lines) in a trace.
  * Python exceptions become the `Err` inductive; `Err.fuel` is not a Python
    error but marks truncation of a fueled loop, and every theorem about a
    loop shows its fuel suffices.
  * while-loops become fuel-indexed recursion; for-loops over lists become
    structural recursion.
-/

namespace TapMarketo

/-- Value models the Python values stored in rows, records, bookmarks and
request parameters: None, str, int, float and bool. Floats are modelled as
rationals; no claim depends on floating point rounding. -/
inductive Value where
  | null : Value
  | str (s : String) : Value
  | int (n : Int) : Value
  | num (q : Rat) : Value
  | bool (b : Bool) : Value
deriving DecidableEq

/-- Python truthiness for `Value`: None, empty string, zero and False are
falsy, everything else is truthy. -/
def Value.truthy : Value → Bool
  | .null => false
  | .str s => decide (s ≠ "")
  | .int n => decide (n ≠ 0)
  | .num q => decide (q ≠ 0)
  | .bool b => b

/-- Lexicographic code-point comparison of two character lists: the
ordering Python uses on str values. -/
def listCharLt : List Char → List Char → Bool
  | [], [] => false
  | [], _ :: _ => true
  | _ :: _, [] => false
  | a :: as, b :: bs =>
    if a.toNat < b.toNat then true
    else if b.toNat < a.toNat then false
    else listCharLt as bs

/-- Python `a < b` on str values. -/
def strLt (a b : String) : Bool := listCharLt a.data b.data

/-- Character-list test that the second list starts the first. -/
def startsWithChars : List Char → List Char → Bool
  | _, [] => true
  | [], _ :: _ => false
  | a :: as, b :: bs => a == b && startsWithChars as bs

/-- Python `s.startswith(p)`. -/
def str_startswith (s p : String) : Bool := startsWithChars s.data p.data

/-- Split a character list at every occurrence of a separator character. -/
def splitChars (sep : Char) : List Char → List Char → List String
  | [], acc => [String.mk acc.reverse]
  | c :: rest, acc =>
    if c == sep then String.mk acc.reverse :: splitChars sep rest []
    else splitChars sep rest (c :: acc)

/-- Python `s.split("_")`. -/
def str_split_underscore (s : String) : List String :=
  splitChars '_' s.data []

/-- Python comparison `a < b` on two values. Strings compare
lexicographically by code point, numbers numerically (int and float mix),
booleans as False < True. Incomparable pairs (for example None versus str)
raise TypeError in Python, modelled as `none`. -/
def Value.ltv : Value → Value → Option Bool
  | .str a, .str b => some (strLt a b)
  | .int a, .int b => some (decide (a < b))
  | .num a, .num b => some (decide (a < b))
  | .int a, .num b => some (decide ((a : Rat) < b))
  | .num a, .int b => some (decide (a < (b : Rat)))
  | .bool a, .bool b => some (a = false && b = true)
  | _, _ => none

/-- Python `type` entry of a field schema: either a single type name or a
list of type names (sync.py lines 37-40 normalise the former to the
latter). -/
inductive TySpec where
  | one (t : String) : TySpec
  | many (ts : List String) : TySpec
deriving DecidableEq

/-- Field schema: the keys of the JSON schema of one field that sync.py
reads (`type`, `format`, `selected`, `inclusion`). -/
structure FieldSchema where
  type : TySpec
  format : Option String
  selected : Bool
  inclusion : String
deriving DecidableEq

/-- Stream schema: the selection flag plus the ordered `properties`
mapping. -/
structure Schema where
  selected : Bool
  properties : List (String × FieldSchema)
deriving DecidableEq

/-- Catalog entry for one stream, with the keys sync.py reads:
`stream["stream"]`, `stream["replication_key"]`, `stream["schema"]`. -/
structure Stream where
  stream : String
  replication_key : String
  schema : Schema
deriving DecidableEq

/-- Record and row representation: a Python dict in insertion order. -/
abbrev Row := List (String × Value)

/-- External collaborator functions: pendulum, json and the Python numeric
constructors. `parseIso s` is `pendulum.parse(s).isoformat()` (None on a
parse failure), `parseTs` maps an ISO string to a point on the UTC time
line (seconds), `isoOfPen` renders such a point as `isoformat()` does,
`utcnow` is the frozen clock of the run, `jsonLoads` parses a JSON object,
`pyInt`/`pyFloat` are `int(...)`/`float(...)` (None when Python would raise
ValueError). -/
structure Ext where
  parseIso : String → Option String
  parseTs : String → Option Nat
  isoOfPen : Nat → String
  utcnow : Nat
  jsonLoads : String → Option (List (String × Value))
  pyInt : Value → Option Int
  pyFloat : Value → Option Rat

/-- Errors: the Python exceptions that sync.py can raise or propagate,
plus `fuel`, which only marks a truncated fueled loop and corresponds to
no Python behaviour. -/
inductive Err where
  | exportFailed : Err
  | nameError (n : String) : Err
  | keyError (k : String) : Err
  | valueError : Err
  | typeError : Err
  | parseError : Err
  | jsonError : Err
  | attributeError : Err
  | stopIteration : Err
  | notImplemented (s : String) : Err
  | fuel : Err
deriving DecidableEq

/-- Python dict assignment `d[k] = v` on an insertion-ordered association
list: overwrite in place when the key exists, append otherwise. -/
def alist_set {α : Type} : List (String × α) → String → α → List (String × α)
  | [], k, v => [(k, v)]
  | (k2, v2) :: rest, k, v =>
    if k2 = k then (k, v) :: rest else (k2, v2) :: alist_set rest k v

/-- Python `row.get(field)`: the stored value, or None when absent. -/
def rowGet (row : Row) (f : String) : Value :=
  (List.lookup f row).getD Value.null

/-- MAX_EXPORT_DAYS constant, sync.py line 12. -/
def MAX_EXPORT_DAYS : Nat := 30

/-- BASE_ACTIVITY_FIELDS constant, sync.py lines 14-19. -/
def BASE_ACTIVITY_FIELDS : List String :=
  ["marketoGUID", "leadId", "activityDate", "activityTypeId"]

/-- ACTIVITY_FIELDS constant, sync.py lines 21-25. -/
def ACTIVITY_FIELDS : List String :=
  BASE_ACTIVITY_FIELDS ++
    ["primaryAttributeValue", "primaryAttributeValueId", "attributes"]

/-- NO_ASSET_MSG constant, sync.py line 27. -/
def NO_ASSET_MSG : String := "No assets found for the given search criteria."

/-- format_value, sync.py lines 36-55. Empty or missing values become None
before any type dispatch; date-time fields go through pendulum; integer,
number and boolean conversions follow, in that order; any other type is
passed through unchanged. Non-string input to pendulum.parse or to
`.lower()` raises, as in Python. -/
def format_value (ext : Ext) (value : Value) (schema : FieldSchema) :
    Except Err Value :=
  let field_type : List String :=
    match schema.type with
    | .one t => [t]
    | .many ts => ts
  if value = Value.null ∨ value = Value.str "" then .ok Value.null
  else if schema.format = some "date-time" then
    match value with
    | .str s =>
      match ext.parseIso s with
      | some r => .ok (Value.str r)
      | none => .error .parseError
    | _ => .error .parseError
  else if field_type.contains "integer" then
    match ext.pyInt value with
    | some n => .ok (Value.int n)
    | none => .error .valueError
  else if field_type.contains "number" then
    match ext.pyFloat value with
    | some q => .ok (Value.num q)
    | none => .error .valueError
  else if field_type.contains "boolean" then
    match value with
    | .bool b => .ok (Value.bool b)
    | .str s => .ok (Value.bool (s.toLower == "true"))
    | _ => .error .attributeError
  else .ok value

/-- Loop body of format_values: walk the schema properties in order, skip
unselected fields, and set each selected field to its formatted value. -/
def format_values_go (ext : Ext) (row : Row) :
    List (String × FieldSchema) → Row → Except Err Row
  | [], rtn => .ok rtn
  | (f, fs) :: rest, rtn =>
    if fs.selected = false then format_values_go ext row rest rtn
    else
      match format_value ext (rowGet row f) fs with
      | .error e => .error e
      | .ok v => format_values_go ext row rest (alist_set rtn f v)

/-- format_values, sync.py lines 58-64. -/
def format_values (ext : Ext) (stream : Stream) (row : Row) :
    Except Err Row :=
  format_values_go ext row stream.schema.properties []

/-- parse_csv_line, sync.py lines 67-69. The csv and io modules are
external collaborators, so raw export lines are modelled after CSV
decoding, as the list of their fields; the function is then the
identity on that representation. -/
def parse_csv_line (line : List String) : List String := line

/-- Python `dict(zip(headers, parsed_line))`: pair up to the shorter list,
later duplicate keys overwrite earlier ones. -/
def dict_zip (headers fields : List String) : List (String × String) :=
  (List.zip headers fields).foldl (fun acc kv => alist_set acc kv.1 kv.2) []

/-- Base-field copy of flatten_activity, sync.py line 74: a missing base
field raises KeyError. -/
def flatten_base (row : List (String × String)) :
    List String → Row → Except Err Row
  | [], acc => .ok acc
  | f :: rest, acc =>
    match List.lookup f row with
    | none => .error (.keyError f)
    | some s => flatten_base row rest (alist_set acc f (Value.str s))

/-- Primary-attribute aliasing of flatten_activity, sync.py lines 80-82:
every automatically included schema field outside ACTIVITY_FIELDS receives
the primaryAttributeValue of the row. -/
def flatten_primary (row : List (String × String)) :
    List (String × FieldSchema) → Row → Except Err Row
  | [], acc => .ok acc
  | (f, fs) :: rest, acc =>
    if fs.inclusion = "automatic" ∧ ACTIVITY_FIELDS.contains f = false then
      match List.lookup "primaryAttributeValue" row with
      | none => .error (.keyError "primaryAttributeValue")
      | some s => flatten_primary row rest (alist_set acc f (Value.str s))
    else flatten_primary row rest acc

/-- Attribute-bag expansion of flatten_activity, sync.py lines 85-89:
parse the attributes JSON and add each key lower-cased with spaces
replaced by underscores. -/
def flatten_attrs (ext : Ext) (row : List (String × String)) (acc : Row) :
    Except Err Row :=
  match List.lookup "attributes" row with
  | none => .ok acc
  | some s =>
    match ext.jsonLoads s with
    | none => .error .jsonError
    | some kvs =>
      .ok (kvs.foldl
        (fun a kv => alist_set a ((kv.1.toLower).replace " " "_") kv.2) acc)

/-- flatten_activity, sync.py lines 72-91. -/
def flatten_activity (ext : Ext) (row : List (String × String))
    (schema : Schema) : Except Err Row := do
  let base ← flatten_base row BASE_ACTIVITY_FIELDS []
  let withPrim ← flatten_primary row schema.properties base
  flatten_attrs ext row withPrim

/-- Tap state: the singer state dict. Bookmarks is the nested mapping from
stream name and bookmark key to stored value (absent keys read as None, as
singer.bookmarks.get_bookmark does); currentlySyncing is the
currently_syncing entry. -/
structure TapState where
  bookmarks : String → String → Value
  currentlySyncing : Value

/-- Functional update of one bookmark entry, the effect of
singer.bookmarks.write_bookmark (which mutates the state dict in place). -/
def TapState.setBk (t : TapState) (s k : String) (v : Value) : TapState :=
  { t with bookmarks := fun s2 k2 =>
      if s2 = s ∧ k2 = k then v else t.bookmarks s2 k2 }

/-- Export query payload passed to client.create_export, sync.py
lines 112-113. -/
structure ExportQuery where
  startsAt : String
  endsAt : String
  activityTypeIds : List String
deriving DecidableEq

/-- Request parameter dict. -/
abbrev Params := List (String × Value)

/-- Observable effects of one run: emitted state snapshots and records,
client calls, and the log lines sync.py writes. -/
inductive Event where
  | writeState (tap : TapState) : Event
  | writeRecord (stream : String) (record : Row) : Event
  | request (method endpoint endpointName : String) (params : Params) : Event
  | createExport (exportType : String) (fields : List String)
      (query : ExportQuery) : Event
  | waitExport (exportType : String) (exportId : Value) : Event
  | streamExportCall (exportType : String) (exportId : Value) : Event
  | logNotSelected (s : String) : Event
  | logAlreadySynced (s : String) : Event
  | logStartSync (s : String) : Event
  | logFinishedSync (s : String) : Event
  | logMetric (s : String) (n : Nat) : Event
  | logResuming (v : Value) : Event
  | logStarting : Event
  | logFinishedRun : Event
  | logCoronaWarning : Event

/-- Machine state of a run: the single mutable state dict plus the trace of
effects so far. -/
structure St where
  tap : TapState
  trace : List Event

/-- Append events to the trace of a machine state. -/
def addTrace (st : St) (evs : List Event) : St :=
  { st with trace := st.trace ++ evs }

/-- The effect monad: state plus trace plus Python exceptions. An
exception keeps the machine state, because the state dict has already been
mutated in place and emitted effects have already happened. -/
def M (α : Type) : Type := St → Except Err α × St

instance : Monad M where
  pure a := fun st => (.ok a, st)
  bind x f := fun st =>
    match x st with
    | (.ok a, st2) => f a st2
    | (.error e, st2) => (.error e, st2)

/-- Raise a Python exception. -/
def throwE {α : Type} (e : Err) : M α := fun st => (.error e, st)

/-- Lift a pure fallible computation into the monad. -/
def liftE {α : Type} (x : Except Err α) : M α := fun st => (x, st)

/-- Append one event to the trace. -/
def emitEv (e : Event) : M Unit := fun st => (.ok (), addTrace st [e])

/-- bookmarks.get_bookmark(state, s, k). -/
def getBk (s k : String) : M Value := fun st => (.ok (st.tap.bookmarks s k), st)

/-- bookmarks.write_bookmark(state, s, k, v). -/
def setBk (s k : String) (v : Value) : M Unit := fun st =>
  (.ok (), { st with tap := st.tap.setBk s k v })

/-- bookmarks.get_currently_syncing(state). -/
def getCur : M Value := fun st => (.ok st.tap.currentlySyncing, st)

/-- bookmarks.set_currently_syncing(state, v). -/
def setCur (v : Value) : M Unit := fun st =>
  (.ok (), { st with tap := { st.tap with currentlySyncing := v } })

/-- singer.write_state(state): persist a snapshot of the current state. -/
def writeStateEv : M Unit := fun st =>
  (.ok (), addTrace st [Event.writeState st.tap])

/-- Parsed JSON body of a client.request call: the keys sync.py reads.
Absent keys are None here and raise KeyError on subscript access. -/
structure Response where
  result : Option (List Row)
  warnings : Option (List String)
  nextPageToken : Option String

/-- The external HTTP/export client of tap_marketo.client.
wait_for_export returns False where Python raises ExportFailed. -/
structure Client where
  createExport : String → List String → ExportQuery → String
  waitForExport : String → Value → Bool
  streamExport : String → Value → List (List String)
  request : String → String → String → Params → Response
  useCorona : Bool

/-- Python `data["result"]`. -/
def resp_result (r : Response) : Except Err (List Row) :=
  match r.result with
  | some rows => .ok rows
  | none => .error (.keyError "result")

/-- Python `data["warnings"]`. -/
def resp_warnings (r : Response) : Except Err (List String) :=
  match r.warnings with
  | some w => .ok w
  | none => .error (.keyError "warnings")

/-- Python `a < b` raising TypeError on incomparable values. -/
def value_lt (a b : Value) : Except Err Bool :=
  match Value.ltv a b with
  | some r => .ok r
  | none => .error .typeError

/-- Python `a >= b` (the negation of `a < b`). -/
def value_ge (a b : Value) : Except Err Bool :=
  match Value.ltv a b with
  | some r => .ok (!r)
  | none => .error .typeError

/-- Python `a > b` (that is `b < a`). -/
def value_gt (a b : Value) : Except Err Bool :=
  match Value.ltv b a with
  | some r => .ok r
  | none => .error .typeError

/-- Python `record[k]` raising KeyError when absent. -/
def record_getitem (record : Row) (k : String) : Except Err Value :=
  match List.lookup k record with
  | some v => .ok v
  | none => .error (.keyError k)

/-- Python `pendulum.parse(v)` on a bookmark value: needs a string, and the
string must parse. -/
def parse_pendulum (ext : Ext) (v : Value) : Except Err Nat :=
  match v with
  | .str s =>
    match ext.parseTs s with
    | some t => .ok t
    | none => .error .parseError
  | _ => .error .typeError

/-- update_activity_state, sync.py lines 123-130: always rewrite export_id
and export_end (the call sites pass None to clear them), write the
replication bookmark only when truthy, then persist the state. -/
def update_activity_state (stream : Stream)
    (bookmark export_id export_end : Value) : M Unit := do
  setBk stream.stream "export_id" export_id
  setBk stream.stream "export_end" export_end
  if bookmark.truthy then
    setBk stream.stream stream.replication_key bookmark
  writeStateEv

/-- get_or_create_export, sync.py lines 94-120. When an export id is
bookmarked it is returned unchanged. Otherwise the stream name is split on
underscores (unpacking into two names raises ValueError for any other
arity), the replication bookmark is read, and then line 107 evaluates
`start_pen.add(days=MAX_EXPORT_DAYS)`: the name start_pen is not defined
anywhere in this function or module scope, so Python raises
NameError before any window is computed or any export is created. -/
def get_or_create_export (stream : Stream) : M Value := do
  let export_id ← getBk stream.stream "export_id"
  if export_id.truthy then
    pure export_id
  else
    match str_split_underscore stream.stream with
    | [_, _] => do
      let _ ← getBk stream.stream stream.replication_key
      throwE (.nameError "start_pen")
    | _ => throwE .valueError

/-- handle_activity_line, sync.py lines 133-144: decode and flatten the
line, format the record, and emit it only when its replication-key value is
not below the bookmarked cursor. -/
def handle_activity_line (ext : Ext) (stream : Stream)
    (headers : List String) (line : List String) : M Nat := do
  let parsed_line := parse_csv_line line
  let row := dict_zip headers parsed_line
  let flat ← liftE (flatten_activity ext row stream.schema)
  let record ← liftE (format_values ext stream flat)
  let start_date ← getBk stream.stream stream.replication_key
  let v ← liftE (record_getitem record stream.replication_key)
  let lt ← liftE (value_lt v start_date)
  if lt then
    pure 0
  else do
    emitEv (Event.writeRecord stream.stream record)
    pure 1

/-- Fold of handle_activity_line over the data lines of one export,
sync.py lines 167-168. -/
def activities_lines (ext : Ext) (stream : Stream) (headers : List String) :
    List (List String) → Nat → M Nat
  | [], count => pure count
  | line :: rest, count => do
    let n ← handle_activity_line ext stream headers line
    activities_lines ext stream headers rest (count + n)

/-- Loop body of sync_activities, sync.py lines 153-174, indexed by fuel.
One iteration gets or creates the export, waits on it (clearing the export
bookmarks and re-raising on ExportFailed), drains its lines, moves the
replication bookmark to the export_end bookmark and continues from there. -/
def sync_activities_loop (ext : Ext) (client : Client) (stream : Stream)
    (job_started : Nat) :
    Nat → Nat → Nat → M Nat
  | 0, _, _ => throwE .fuel
  | Nat.succ fuel, start_pen, record_count =>
    if start_pen < job_started then do
      let export_id ← get_or_create_export stream
      emitEv (Event.waitExport "activities" export_id)
      if client.waitForExport "activities" export_id = false then do
        update_activity_state stream Value.null Value.null Value.null
        throwE .exportFailed
      else do
        emitEv (Event.streamExportCall "activities" export_id)
        match client.streamExport "activities" export_id with
        | [] => throwE .stopIteration
        | headerLine :: rest => do
          let headers := parse_csv_line headerLine
          let count ← activities_lines ext stream headers rest 0
          let start_date ← getBk stream.stream "export_end"
          update_activity_state stream start_date Value.null Value.null
          let start_pen2 ← liftE (parse_pendulum ext start_date)
          sync_activities_loop ext client stream job_started fuel start_pen2
            (record_count + count)
    else pure record_count

/-- sync_activities, sync.py lines 147-176. job_started is
pendulum.utcnow(), modelled with a clock frozen for the run. -/
def sync_activities (ext : Ext) (client : Client) (stream : Stream)
    (fuel : Nat) : M Nat := do
  let start_date ← getBk stream.stream stream.replication_key
  let start_pen ← liftE (parse_pendulum ext start_date)
  let job_started := ext.utcnow
  sync_activities_loop ext client stream job_started fuel start_pen 0

/-- Row loop of sync_programs, sync.py lines 208-212: format each row and
emit it when its updatedAt is at least the start cursor. -/
def programs_rows (ext : Ext) (stream : Stream) (start_date : Value) :
    List Row → M Nat
  | [] => pure 0
  | row :: rest => do
    let record ← liftE (format_values ext stream row)
    let v ← liftE (record_getitem record "updatedAt")
    let ge ← liftE (value_ge v start_date)
    let n ←
      if ge then do
        emitEv (Event.writeRecord "programs" record)
        pure 1
      else pure 0
    let m ← programs_rows ext stream start_date rest
    pure (n + m)

/-- Python `params["offset"] += params["maxReturn"]`, sync.py line 215. -/
def params_bump (params : Params) : Except Err Params :=
  match List.lookup "offset" params, List.lookup "maxReturn" params with
  | some (.int o), some (.int m) =>
    .ok (alist_set params "offset" (Value.int (o + m)))
  | some _, some _ => .error .typeError
  | none, _ => .error (.keyError "offset")
  | _, none => .error (.keyError "maxReturn")

/-- Paging loop of sync_programs, sync.py lines 198-215, indexed by fuel:
request a page, stop as soon as the warnings contain NO_ASSET_MSG,
otherwise process the rows and advance the offset by maxReturn. -/
def sync_programs_loop (ext : Ext) (client : Client) (stream : Stream)
    (start_date : Value) :
    Nat → Params → Nat → M Nat
  | 0, _, _ => throwE .fuel
  | Nat.succ fuel, params, record_count => do
    emitEv (Event.request "GET" "rest/asset/v1/programs.json" "programs"
      params)
    let data := client.request "GET" "rest/asset/v1/programs.json"
      "programs" params
    let warnings ← liftE (resp_warnings data)
    if warnings.contains NO_ASSET_MSG then
      pure record_count
    else do
      let rows ← liftE (resp_result data)
      let n ← programs_rows ext stream start_date rows
      let params2 ← liftE (params_bump params)
      sync_programs_loop ext client stream start_date fuel params2
        (record_count + n)

/-- sync_programs, sync.py lines 179-221: query from the bookmark until
now, page by offset until the no-asset sentinel, then move the bookmark to
the end of the query window and persist. -/
def sync_programs (ext : Ext) (client : Client) (stream : Stream)
    (fuel : Nat) : M Nat := do
  let start_date ← getBk "programs" "updatedAt"
  let end_date := Value.str (ext.isoOfPen ext.utcnow)
  let params : Params :=
    [("maxReturn", Value.int 200), ("offset", Value.int 0),
     ("earliestUpdatedAt", start_date), ("latestUpdatedAt", end_date)]
  let n ← sync_programs_loop ext client stream start_date fuel params 0
  setBk "programs" "updatedAt" end_date
  writeStateEv
  pure n

/-- Row loop of sync_paginated, sync.py lines 248-255: format each row,
emit it when its replication-key value is at least the start cursor, then
re-read the replication bookmark from state and raise the running maximum
when that bookmark exceeds it. -/
def paginated_rows (ext : Ext) (stream : Stream) (start_date : Value) :
    List Row → Nat → Value → M (Nat × Value)
  | [], count, max_bookmark => pure (count, max_bookmark)
  | row :: rest, count, max_bookmark => do
    let record ← liftE (format_values ext stream row)
    let v ← liftE (record_getitem record stream.replication_key)
    let ge ← liftE (value_ge v start_date)
    if ge then do
      emitEv (Event.writeRecord stream.stream record)
      let bookmark ← getBk stream.stream stream.replication_key
      let gt ← liftE (value_gt bookmark max_bookmark)
      let mb := if gt then bookmark else max_bookmark
      paginated_rows ext stream start_date rest (count + 1) mb
    else
      paginated_rows ext stream start_date rest count max_bookmark

/-- Paging loop of sync_paginated, sync.py lines 242-264, indexed by fuel:
request a page, process its rows, stop when the response has no
nextPageToken, otherwise persist the token and continue with it. -/
def sync_paginated_loop (ext : Ext) (client : Client) (stream : Stream)
    (start_date : Value) (endpoint : String) :
    Nat → Params → Nat → Value → M (Nat × Value)
  | 0, _, _, _ => throwE .fuel
  | Nat.succ fuel, params, record_count, max_bookmark => do
    emitEv (Event.request "GET" endpoint stream.stream params)
    let data := client.request "GET" endpoint stream.stream params
    let rows ← liftE (resp_result data)
    let cm ← paginated_rows ext stream start_date rows record_count
      max_bookmark
    match data.nextPageToken with
    | none => pure cm
    | some tok => do
      let params2 := alist_set params "nextPageToken" (Value.str tok)
      setBk stream.stream "next_page_token" (Value.str tok)
      writeStateEv
      sync_paginated_loop ext client stream start_date endpoint fuel params2
        cm.1 cm.2

/-- sync_paginated, sync.py lines 224-271: resume from a bookmarked paging
token when present, page until no next token, then clear the token
bookmark, write max_bookmark as the replication bookmark and persist. -/
def sync_paginated (ext : Ext) (client : Client) (stream : Stream)
    (fuel : Nat) : M Nat := do
  let start_date ← getBk stream.stream stream.replication_key
  let endpoint := "rest/v1/" ++ stream.stream ++ ".json"
  let next_page_token ← getBk stream.stream "next_page_token"
  let params : Params :=
    if next_page_token.truthy then
      alist_set [("batchSize", Value.int 300)] "nextPageToken"
        next_page_token
    else [("batchSize", Value.int 300)]
  let cm ← sync_paginated_loop ext client stream start_date endpoint fuel
    params 0 start_date
  setBk stream.stream "next_page_token" Value.null
  setBk stream.stream stream.replication_key cm.2
  writeStateEv
  pure cm.1

/-- Row loop of sync_activity_types, sync.py lines 280-283. -/
def activity_types_rows (ext : Ext) (stream : Stream) :
    List Row → Nat → M Nat
  | [], count => pure count
  | row :: rest, count => do
    let record ← liftE (format_values ext stream row)
    emitEv (Event.writeRecord "activity_types" record)
    activity_types_rows ext stream rest (count + 1)

/-- sync_activity_types, sync.py lines 274-285: one unpaginated request. -/
def sync_activity_types (ext : Ext) (client : Client) (stream : Stream) :
    M Nat := do
  emitEv (Event.request "GET" "rest/v1/activities/types.json"
    "activity_types" [])
  let data := client.request "GET" "rest/v1/activities/types.json"
    "activity_types" []
  let rows ← liftE (resp_result data)
  activity_types_rows ext stream rows 0

/-- Strategy dispatch of the orchestrator, sync.py lines 315-324. -/
def dispatch_stream (ext : Ext) (client : Client) (fuel : Nat)
    (stream : Stream) : M Nat :=
  if stream.stream = "activity_types" then
    sync_activity_types ext client stream
  else if str_startswith stream.stream "activities_" then
    sync_activities ext client stream fuel
  else if stream.stream = "campaigns" ∨ stream.stream = "lists" then
    sync_paginated ext client stream fuel
  else if stream.stream = "programs" then
    sync_programs ext client stream fuel
  else throwE (.notImplemented stream.stream)

/-- Stream loop of the orchestrator, sync.py lines 295-334: skip
unselected streams, skip streams before the resume marker, then mark the
stream as currently syncing, persist, dispatch, emit the record-count
metric, clear the marker and persist again. -/
def sync_streams (ext : Ext) (client : Client) (fuel : Nat) :
    List Stream → Value → M Unit
  | [], _ => pure ()
  | stream :: rest, starting_stream =>
    if stream.schema.selected = false then do
      emitEv (Event.logNotSelected stream.stream)
      sync_streams ext client fuel rest starting_stream
    else if starting_stream.truthy ∧ Value.str stream.stream ≠ starting_stream
    then do
      emitEv (Event.logAlreadySynced stream.stream)
      sync_streams ext client fuel rest starting_stream
    else do
      emitEv (Event.logStartSync stream.stream)
      setCur (Value.str stream.stream)
      writeStateEv
      let record_count ← dispatch_stream ext client fuel stream
      emitEv (Event.logMetric stream.stream record_count)
      setCur Value.null
      writeStateEv
      emitEv (Event.logFinishedSync stream.stream)
      sync_streams ext client fuel rest Value.null

/-- Catalog: the stream list loaded from the catalog file. -/
structure Catalog where
  streams : List Stream

/-- sync, sync.py lines 288-341: the orchestrator. -/
def sync (ext : Ext) (client : Client) (catalog : Catalog) (fuel : Nat) :
    M Unit := do
  let starting_stream ← getCur
  if starting_stream.truthy then
    emitEv (Event.logResuming starting_stream)
  else
    emitEv Event.logStarting
  sync_streams ext client fuel catalog.streams starting_stream
  emitEv Event.logFinishedRun
  if client.useCorona = false then
    emitEv Event.logCoronaWarning

/-- Projection of writeRecord events out of a trace. -/
def Event.recordView : Event → Option (String × Row)
  | .writeRecord s r => some (s, r)
  | _ => none

/-- Projection of request events out of a trace: endpoint name and
parameters. -/
def Event.requestView : Event → Option (String × Params)
  | .request _ _ name params => some (name, params)
  | _ => none

/-- Projection of the starting-sync log lines. -/
def Event.startSyncView : Event → Option String
  | .logStartSync s => some s
  | _ => none

/-- Projection of the already-synced log lines. -/
def Event.alreadySyncedView : Event → Option String
  | .logAlreadySynced s => some s
  | _ => none

/-- Projection of create-export client calls. -/
def Event.isCreateExport : Event → Bool
  | .createExport _ _ _ => true
  | _ => false

/-- Projection of wait-for-export client calls. -/
def Event.waitView : Event → Option (String × Value)
  | .waitExport t i => some (t, i)
  | _ => none

/-- Projection of persisted state snapshots to the pair of export
bookmarks of one stream plus the currently-syncing marker. -/
def Event.stateView (s : String) : Event → Option (Value × Value × Value)
  | .writeState t => some (t.bookmarks s "export_id",
      t.bookmarks s "export_end", t.currentlySyncing)
  | _ => none

/-- Decimal digit accumulator for the timestamp fixture. -/
def digitsToNatAux : List Char → Nat → Option Nat
  | [], acc => some acc
  | c :: rest, acc =>
    if 48 ≤ c.toNat ∧ c.toNat ≤ 57 then
      digitsToNatAux rest (acc * 10 + (c.toNat - 48))
    else none

/-- Timestamp parser fixture: decimal second counts. -/
def parseTsFix (s : String) : Option Nat :=
  match s.data with
  | [] => none
  | l => digitsToNatAux l 0

/-- Collaborator fixture with a frozen clock for concrete runs: cursor
strings parse as decimal second counts and the clock renders to a fixed
ISO string. -/
def extFix (now : Nat) : Ext where
  parseIso := fun s => some s
  parseTs := parseTsFix
  isoOfPen := fun _ => "2026-10-12T00:00:00+00:00"
  utcnow := now
  jsonLoads := fun _ => none
  pyInt := fun _ => none
  pyFloat := fun _ => none

/-- Client fixture whose requests return one empty page. -/
def clientTrivial : Client where
  createExport := fun _ _ _ => "exp"
  waitForExport := fun _ _ => true
  streamExport := fun _ _ => []
  request := fun _ _ _ _ =>
    { result := some [], warnings := some [], nextPageToken := none }
  useCorona := true

/-- Plain selected string field. -/
def fsStr : FieldSchema :=
  { type := .one "string", format := none, selected := true,
    inclusion := "available" }

/-- Activity stream fixture for activity type 1. -/
def streamAct : Stream :=
  { stream := "activities_1", replication_key := "activityDate",
    schema := { selected := true,
                properties := [("activityDate", fsStr)] } }

/-- Campaigns stream fixture. -/
def streamCamp : Stream :=
  { stream := "campaigns", replication_key := "updatedAt",
    schema := { selected := true, properties := [("updatedAt", fsStr)] } }

/-- Lists stream fixture. -/
def streamLists : Stream :=
  { stream := "lists", replication_key := "updatedAt",
    schema := { selected := true, properties := [("updatedAt", fsStr)] } }

/-- Activity types stream fixture. -/
def streamTypes : Stream :=
  { stream := "activity_types", replication_key := "",
    schema := { selected := true, properties := [] } }

/-- Programs stream fixture. -/
def streamProgs : Stream :=
  { stream := "programs", replication_key := "updatedAt",
    schema := { selected := true, properties := [("updatedAt", fsStr)] } }

/-- Empty tap state. -/
def tap0 : TapState :=
  { bookmarks := fun _ _ => Value.null, currentlySyncing := Value.null }

/-- Machine state with empty trace over a given tap state. -/
def stOf (t : TapState) : St := { tap := t, trace := [] }

/-- Concrete run used for claim C2: activities stream with a replication
cursor bookmarked and no export_id bookmarked. -/
def runC2 : Except Err Value × St :=
  get_or_create_export streamAct
    (stOf (tap0.setBk "activities_1" "activityDate"
      (Value.str "2020-01-01T00:00:00+00:00")))

/-- C2: with no export_id bookmarked, get_or_create_export does not
compute the export window, create an export job or store export_id and
export_end; evaluating line 107 of sync.py raises NameError on the
undefined name start_pen, leaving the state untouched: no export is
created (empty trace) and export_id and export_end stay None. -/
theorem get_or_create_export_raises_name_error :
    runC2.1 = Except.error (Err.nameError "start_pen") ∧
      runC2.2.trace = [] ∧
      runC2.2.tap.bookmarks "activities_1" "export_id" = Value.null ∧
      runC2.2.tap.bookmarks "activities_1" "export_end" = Value.null :=
  ⟨rfl, rfl, rfl, rfl⟩

/-- Concrete run used for claim C3: the replication cursor parses to a
point 65 days (5616000 seconds) before the frozen clock, with no pending
export. -/
def runC3 : Except Err Nat × St :=
  sync_activities (extFix 5616000) clientTrivial streamAct 4
    (stOf (tap0.setBk "activities_1" "activityDate" (Value.str "0")))

/-- C3: with a cursor 65 days before now the code does not issue three
30+30+5 day export jobs; the very first get_or_create_export call raises
NameError (undefined start_pen, sync.py line 107), so the run aborts
with zero export jobs issued and an empty effect trace. -/
theorem sync_activities_backlog_crashes_before_first_export :
    runC3.1 = Except.error (Err.nameError "start_pen") ∧
      runC3.2.trace.filter Event.isCreateExport = [] ∧
      runC3.2.trace = [] :=
  ⟨rfl, rfl, rfl⟩

/-- Concrete run used for claim C1: one token-paginated page holding a
single record whose replication-key value exceeds the starting cursor. -/
def runC1 : Except Err Nat × St :=
  sync_paginated (extFix 100) (
    { clientTrivial with
        request := fun _ _ _ _ =>
          { result :=
              some [[("updatedAt", Value.str "2020-02-01T00:00:00+00:00")]],
            warnings := some [], nextPageToken := none } })
    streamCamp 2
    (stOf (tap0.setBk "campaigns" "updatedAt"
      (Value.str "2020-01-01T00:00:00+00:00")))

/-- C1: the sync completes and emits one record with replication-key value
2020-02-01, the maximum observed, yet the replication bookmark written to
state is the starting cursor 2020-01-01: the running maximum re-reads the
never-updated state bookmark (sync.py line 253) instead of the record
value, so the dead comparison on line 254 leaves max_bookmark at the
start cursor. -/
theorem sync_paginated_bookmark_is_start_not_max :
    runC1.1 = Except.ok 1 ∧
      runC1.2.trace.filterMap Event.recordView =
        [("campaigns",
          [("updatedAt", Value.str "2020-02-01T00:00:00+00:00")])] ∧
      runC1.2.tap.bookmarks "campaigns" "updatedAt" =
        Value.str "2020-01-01T00:00:00+00:00" :=
  ⟨rfl, rfl, rfl⟩

/-- Concrete run used for the claim C4 counterexample: a selected stream
with the unrecognized name bogus and an empty starting state. -/
def runC4 : Except Err Unit × St :=
  sync (extFix 100) clientTrivial
    ⟨[{ stream := "bogus", replication_key := "",
        schema := { selected := true, properties := [] } }]⟩ 2
    (stOf tap0)

/-- C4 counterexample: on an unrecognized selected stream the orchestrator
does raise the fatal error, but the state is mutated first: the
currently-syncing marker is set to the unrecognized stream name and that
mutated state is persisted (a writeState snapshot carrying export-free
bookmarks and marker bogus) before the exception on sync.py line 324, so
the state is not left unchanged. -/
theorem sync_unrecognized_stream_mutates_state_before_error :
    runC4.1 = Except.error (Err.notImplemented "bogus") ∧
      runC4.2.tap.currentlySyncing = Value.str "bogus" ∧
      (stOf tap0).tap.currentlySyncing = Value.null ∧
      runC4.2.trace.filterMap (Event.stateView "bogus") =
        [(Value.null, Value.null, Value.str "bogus")] :=
  ⟨rfl, rfl, rfl, rfl⟩

/-- Concrete run used for claim C5: resume marker campaigns, catalog order
activity_types, campaigns, lists, all selected. -/
def runC5 : Except Err Unit × St :=
  sync (extFix 100) clientTrivial ⟨[streamTypes, streamCamp, streamLists]⟩ 2
    (stOf { tap0 with currentlySyncing := Value.str "campaigns" })

/-- C5: resuming with currently_syncing campaigns over the catalog
activity_types, campaigns, lists skips activity_types (it is logged as
already synced, no request is issued for it and no record is emitted),
campaigns is the first stream started, and the marker stops causing skips
afterwards, so lists is synced next. -/
theorem sync_resume_skips_before_marker_then_continues :
    runC5.1 = Except.ok () ∧
      runC5.2.trace.filterMap Event.startSyncView = ["campaigns", "lists"] ∧
      runC5.2.trace.filterMap Event.alreadySyncedView = ["activity_types"] ∧
      runC5.2.trace.filterMap Event.requestView =
        [("campaigns", [("batchSize", Value.int 300)]),
         ("lists", [("batchSize", Value.int 300)])] ∧
      runC5.2.trace.filterMap Event.recordView = [] :=
  ⟨rfl, rfl, rfl, rfl, rfl⟩

/-- Concrete run used for the claim C7 counterexample: the programs
bookmark lies in the far future of the frozen clock and the first page
already carries the no-asset sentinel. -/
def runC7 : Except Err Nat × St :=
  sync_programs (extFix 5616000) (
    { clientTrivial with
        request := fun _ _ _ _ =>
          { result := some [], warnings := some [NO_ASSET_MSG],
            nextPageToken := none } })
    streamProgs 2
    (stOf (tap0.setBk "programs" "updatedAt"
      (Value.str "9999-01-01T00:00:00+00:00")))

/-- C7 counterexample: a completed sync_programs invocation rewrites the
replication bookmark to the render of the current clock (sync.py
line 219) regardless of the starting cursor, so with a starting cursor
greater than now the bookmark strictly decreases: the final value 5616000
is less than the starting value 9999-01-01. -/
theorem sync_programs_cursor_decreases_on_future_start :
    runC7.1 = Except.ok 0 ∧
      runC7.2.tap.bookmarks "programs" "updatedAt" =
        Value.str "2026-10-12T00:00:00+00:00" ∧
      Value.ltv (Value.str "2026-10-12T00:00:00+00:00")
        (Value.str "9999-01-01T00:00:00+00:00") = some true :=
  ⟨rfl, rfl, rfl⟩

/-- Run equation for bind in the effect monad. -/
theorem mrun_bind {α β : Type} (x : M α) (f : α → M β) (st : St) :
    (x >>= f) st =
      match x st with
      | (Except.ok a, st2) => f a st2
      | (Except.error e, st2) => (Except.error e, st2) := rfl

/-- Run equation for pure in the effect monad. -/
theorem mrun_pure {α : Type} (a : α) (st : St) :
    (pure a : M α) st = (Except.ok a, st) := rfl

/-- Reading a bookmark right after writing it yields the written value. -/
theorem setBk_get_self (t : TapState) (s k : String) (v : Value) :
    (t.setBk s k v).bookmarks s k = v := by
  simp [TapState.setBk]

/-- Reading a different bookmark key after a write is unchanged. -/
theorem setBk_get_ne (t : TapState) (s k s2 k2 : String) (v : Value)
    (h : ¬(s2 = s ∧ k2 = k)) :
    (t.setBk s k v).bookmarks s2 k2 = t.bookmarks s2 k2 := by
  simp [TapState.setBk, h]

/-- Truthiness of None. -/
theorem truthy_null : Value.null.truthy = false := rfl

/-- C8: when waiting on the export raises ExportFailed, sync_activities
clears both the export_id and export_end bookmarks (writing None),
persists that cleared state, and re-raises ExportFailed unmodified; the
replication cursor is untouched and exactly one wait call was made, so no
retry happens within the run. -/
theorem sync_activities_export_failed_clears_and_reraises
    (ext : Ext) (client : Client) (stream : Stream) (tap : TapState)
    (c : String) (t : Nat) (i : Value) (fuel : Nat)
    (hc : tap.bookmarks stream.stream stream.replication_key = Value.str c)
    (hp : ext.parseTs c = some t)
    (ht : t < ext.utcnow)
    (hi : tap.bookmarks stream.stream "export_id" = i)
    (htru : i.truthy = true)
    (hw : client.waitForExport "activities" i = false)
    (hrk1 : stream.replication_key ≠ "export_id")
    (hrk2 : stream.replication_key ≠ "export_end")
    (hf : 0 < fuel) :
    (sync_activities ext client stream fuel (stOf tap)).1 =
        Except.error Err.exportFailed ∧
      (sync_activities ext client stream fuel
          (stOf tap)).2.tap.bookmarks stream.stream "export_id" =
        Value.null ∧
      (sync_activities ext client stream fuel
          (stOf tap)).2.tap.bookmarks stream.stream "export_end" =
        Value.null ∧
      (sync_activities ext client stream fuel
          (stOf tap)).2.tap.bookmarks stream.stream stream.replication_key =
        Value.str c ∧
      (sync_activities ext client stream fuel
          (stOf tap)).2.trace.filterMap Event.waitView =
        [("activities", i)] ∧
      (sync_activities ext client stream fuel
          (stOf tap)).2.trace.filterMap (Event.stateView stream.stream) =
        [(Value.null, Value.null, tap.currentlySyncing)] := by
  obtain ⟨f, rfl⟩ : ∃ f, fuel = f + 1 :=
    ⟨fuel - 1, by omega⟩
  have hmain : sync_activities ext client stream (f + 1) (stOf tap) =
      (Except.error Err.exportFailed,
       { tap := (tap.setBk stream.stream "export_id" Value.null).setBk
           stream.stream "export_end" Value.null,
         trace := [Event.waitExport "activities" i,
           Event.writeState ((tap.setBk stream.stream "export_id"
             Value.null).setBk stream.stream "export_end" Value.null)] }) := by
    simp [sync_activities, sync_activities_loop, get_or_create_export,
      update_activity_state, writeStateEv, emitEv, getBk, setBk, liftE,
      throwE, parse_pendulum, stOf, mrun_bind, mrun_pure, addTrace,
      truthy_null, hc, hp, ht, hi, htru, hw]
  rw [hmain]
  refine ⟨rfl, ?_, ?_, ?_, ?_, ?_⟩
  · simp [TapState.setBk]
  · simp [TapState.setBk]
  · simp [TapState.setBk, hrk1, hrk2, hc]
  · simp [Event.waitView, Event.stateView]
  · simp [Event.waitView, Event.stateView, TapState.setBk]

/-- Tap state fixture for the C8 witness: cursor, export_id and export_end
all bookmarked for activities_1. -/
def tapC8 : TapState :=
  ((tap0.setBk "activities_1" "activityDate" (Value.str "0")).setBk
    "activities_1" "export_id" (Value.str "e7")).setBk
    "activities_1" "export_end" (Value.str "50")

/-- Client fixture whose export wait always fails. -/
def clientFail : Client :=
  { clientTrivial with waitForExport := fun _ _ => false }

/-- Witness for C8 at a concrete failing export. -/
theorem sync_activities_export_failed_witness :
    (sync_activities (extFix 1) clientFail streamAct 1 (stOf tapC8)).1 =
        Except.error Err.exportFailed ∧
      (sync_activities (extFix 1) clientFail streamAct 1
          (stOf tapC8)).2.tap.bookmarks "activities_1" "export_id" =
        Value.null ∧
      (sync_activities (extFix 1) clientFail streamAct 1
          (stOf tapC8)).2.tap.bookmarks "activities_1" "export_end" =
        Value.null ∧
      (sync_activities (extFix 1) clientFail streamAct 1
          (stOf tapC8)).2.tap.bookmarks "activities_1" "activityDate" =
        Value.str "0" ∧
      (sync_activities (extFix 1) clientFail streamAct 1
          (stOf tapC8)).2.trace.filterMap Event.waitView =
        [("activities", Value.str "e7")] ∧
      (sync_activities (extFix 1) clientFail streamAct 1
          (stOf tapC8)).2.trace.filterMap (Event.stateView "activities_1") =
        [(Value.null, Value.null, Value.null)] :=
  sync_activities_export_failed_clears_and_reraises (extFix 1) clientFail
    streamAct tapC8 "0" 0 (Value.str "e7") 1 rfl rfl (by decide) rfl rfl
    rfl (by decide) (by decide) (by decide)

/-- C4 amended: on a selected stream whose name matches no strategy the
orchestrator raises the fatal unrecognized-stream error with no records
emitted and no bookmark changed, but only after mutating the state: the
currently-syncing marker is set to the unrecognized name and that state is
persisted before the exception. -/
theorem sync_unrecognized_stream_fatal_after_marker
    (ext : Ext) (client : Client) (fuel : Nat) (tap : TapState)
    (name rk : String) (props : List (String × FieldSchema))
    (h0 : tap.currentlySyncing = Value.null)
    (h1 : name ≠ "activity_types")
    (h2 : str_startswith name "activities_" = false)
    (h3 : name ≠ "campaigns") (h4 : name ≠ "lists")
    (h5 : name ≠ "programs") :
    sync ext client
        ⟨[{ stream := name, replication_key := rk,
            schema := { selected := true, properties := props } }]⟩ fuel
        (stOf tap) =
      (Except.error (Err.notImplemented name),
       { tap := { tap with currentlySyncing := Value.str name },
         trace := [Event.logStarting, Event.logStartSync name,
           Event.writeState
             { tap with currentlySyncing := Value.str name }] }) := by
  simp [sync, sync_streams, dispatch_stream, getCur, setCur, writeStateEv,
    emitEv, throwE, stOf, mrun_bind, mrun_pure, addTrace, truthy_null,
    h0, h1, h2, h3, h4, h5]

/-- Witness for the amended C4 at the concrete stream name bogus. -/
theorem sync_unrecognized_stream_fatal_witness :
    sync (extFix 100) clientTrivial
        ⟨[{ stream := "bogus", replication_key := "",
            schema := { selected := true, properties := [] } }]⟩ 2
        (stOf tap0) =
      (Except.error (Err.notImplemented "bogus"),
       { tap := { tap0 with currentlySyncing := Value.str "bogus" },
         trace := [Event.logStarting, Event.logStartSync "bogus",
           Event.writeState
             { tap0 with currentlySyncing := Value.str "bogus" }] }) :=
  sync_unrecognized_stream_fatal_after_marker (extFix 100) clientTrivial 2
    tap0 "bogus" "" [] rfl (by decide) (by decide) (by decide) (by decide)
    (by decide)

/-- C6: the emission guard compares against the cursor bookmarked at the
start of the current window or run. A drained activity line whose
formatted replication-key value v compares below the bookmarked cursor b
is dropped (count 0, no record event); otherwise it is emitted (count 1,
one record event): emission happens exactly when v is at least b. A row
of a token-paginated page is emitted exactly when its replication-key
value v is at least the run-start cursor s; when it is emitted the row
loop then re-reads the state bookmark for the running maximum. -/
theorem emission_guard_iff_cursor :
    (∀ (ext : Ext) (stream : Stream) (headers line : List String)
        (st : St) (flat record : Row) (v b : String),
      flatten_activity ext (dict_zip headers (parse_csv_line line))
          stream.schema = Except.ok flat →
      format_values ext stream flat = Except.ok record →
      List.lookup stream.replication_key record = some (Value.str v) →
      st.tap.bookmarks stream.stream stream.replication_key =
        Value.str b →
      handle_activity_line ext stream headers line st =
        (if strLt v b = true then (Except.ok 0, st)
         else (Except.ok 1,
           addTrace st [Event.writeRecord stream.stream record]))) ∧
    (∀ (ext : Ext) (stream : Stream) (st : St) (row : Row)
        (rest : List Row) (record : Row) (v s : String) (count : Nat)
        (mb : Value),
      format_values ext stream row = Except.ok record →
      List.lookup stream.replication_key record = some (Value.str v) →
      paginated_rows ext stream (Value.str s) (row :: rest) count mb st =
        (if strLt v s = true then
          paginated_rows ext stream (Value.str s) rest count mb st
         else
          match value_gt
              (st.tap.bookmarks stream.stream stream.replication_key)
              mb with
          | Except.error e =>
            (Except.error e,
             addTrace st [Event.writeRecord stream.stream record])
          | Except.ok gt =>
            paginated_rows ext stream (Value.str s) rest (count + 1)
              (if gt = true then
                st.tap.bookmarks stream.stream stream.replication_key
               else mb)
              (addTrace st [Event.writeRecord stream.stream record]))) := by
  constructor
  · intro ext stream headers line st flat record v b hflat hfmt hlook hbk
    by_cases hlt : strLt v b = true
    · simp [handle_activity_line, mrun_bind, mrun_pure, liftE, getBk,
        emitEv, hflat, hfmt, hlook, hbk, record_getitem, value_lt,
        Value.ltv, hlt]
    · simp [handle_activity_line, mrun_bind, mrun_pure, liftE, getBk,
        emitEv, hflat, hfmt, hlook, hbk, record_getitem, value_lt,
        Value.ltv, hlt, addTrace]
  · intro ext stream st row rest record v s count mb hfmt hlook
    by_cases hlt : strLt v s = true
    · simp [paginated_rows, mrun_bind, mrun_pure, liftE, getBk, emitEv,
        hfmt, hlook, record_getitem, value_ge, Value.ltv, hlt]
    · cases hgt : value_gt
        (st.tap.bookmarks stream.stream stream.replication_key) mb with
      | error e =>
        simp [paginated_rows, mrun_bind, mrun_pure, liftE, getBk, emitEv,
          hfmt, hlook, record_getitem, value_ge, Value.ltv, hlt, hgt,
          addTrace]
      | ok gt =>
        simp [paginated_rows, mrun_bind, mrun_pure, liftE, getBk, emitEv,
          hfmt, hlook, record_getitem, value_ge, Value.ltv, hlt, hgt,
          addTrace]

/-- Witness for C6: an activity record stamped one second before the
window-start cursor is dropped, and a paginated row above the run-start
cursor is emitted. -/
theorem emission_guard_witness :
    handle_activity_line (extFix 100) streamAct
        ["marketoGUID", "leadId", "activityDate", "activityTypeId"]
        ["g1", "7", "2023-01-01T00:00:00+00:00", "1"]
        (stOf (tap0.setBk "activities_1" "activityDate"
          (Value.str "2023-01-01T00:00:01+00:00"))) =
      (Except.ok 0,
       stOf (tap0.setBk "activities_1" "activityDate"
         (Value.str "2023-01-01T00:00:01+00:00"))) ∧
    paginated_rows (extFix 100) streamCamp
        (Value.str "2020-01-01T00:00:00+00:00")
        [[("updatedAt", Value.str "2020-02-01T00:00:00+00:00")]] 0
        (Value.str "2020-01-01T00:00:00+00:00")
        (stOf (tap0.setBk "campaigns" "updatedAt"
          (Value.str "2020-01-01T00:00:00+00:00"))) =
      (Except.ok (1, Value.str "2020-01-01T00:00:00+00:00"),
       addTrace
         (stOf (tap0.setBk "campaigns" "updatedAt"
           (Value.str "2020-01-01T00:00:00+00:00")))
         [Event.writeRecord "campaigns"
           [("updatedAt", Value.str "2020-02-01T00:00:00+00:00")]]) := by
  constructor
  · exact (emission_guard_iff_cursor.1 (extFix 100) streamAct
      ["marketoGUID", "leadId", "activityDate", "activityTypeId"]
      ["g1", "7", "2023-01-01T00:00:00+00:00", "1"]
      (stOf (tap0.setBk "activities_1" "activityDate"
        (Value.str "2023-01-01T00:00:01+00:00")))
      [("marketoGUID", Value.str "g1"), ("leadId", Value.str "7"),
       ("activityDate", Value.str "2023-01-01T00:00:00+00:00"),
       ("activityTypeId", Value.str "1")]
      [("activityDate", Value.str "2023-01-01T00:00:00+00:00")]
      "2023-01-01T00:00:00+00:00" "2023-01-01T00:00:01+00:00"
      rfl rfl rfl rfl).trans rfl
  · exact (emission_guard_iff_cursor.2 (extFix 100) streamCamp
      (stOf (tap0.setBk "campaigns" "updatedAt"
        (Value.str "2020-01-01T00:00:00+00:00")))
      [("updatedAt", Value.str "2020-02-01T00:00:00+00:00")] []
      [("updatedAt", Value.str "2020-02-01T00:00:00+00:00")]
      "2020-02-01T00:00:00+00:00" "2020-01-01T00:00:00+00:00" 0
      (Value.str "2020-01-01T00:00:00+00:00")
      rfl rfl).trans rfl

/-- Lookup at the head key of an association list. -/
theorem lookup_cons_eq {α : Type} (k : String) (v : α)
    (l : List (String × α)) :
    List.lookup k ((k, v) :: l) = some v := by
  simp [List.lookup]

/-- Lookup skips a head entry with a different key. -/
theorem lookup_cons_ne {α : Type} (k k2 : String) (v : α)
    (l : List (String × α)) (h : k ≠ k2) :
    List.lookup k ((k2, v) :: l) = List.lookup k l := by
  have hb : (k == k2) = false := beq_eq_false_iff_ne.mpr h
  simp [List.lookup, hb]

/-- Lookup after a dict assignment at the assigned key. -/
theorem alist_set_lookup_self {α : Type} (l : List (String × α))
    (k : String) (v : α) :
    List.lookup k (alist_set l k v) = some v := by
  induction l with
  | nil => simp [alist_set, List.lookup]
  | cons kv rest ih =>
    obtain ⟨k2, v2⟩ := kv
    by_cases h : k2 = k
    · simp [alist_set, h, lookup_cons_eq]
    · rw [alist_set, if_neg h, lookup_cons_ne k k2 v2 _ (Ne.symm h)]
      exact ih

/-- Lookup after a dict assignment at a different key. -/
theorem alist_set_lookup_ne {α : Type} (l : List (String × α))
    (k k2 : String) (v : α) (h : k2 ≠ k) :
    List.lookup k2 (alist_set l k v) = List.lookup k2 l := by
  induction l with
  | nil =>
    show List.lookup k2 [(k, v)] = List.lookup k2 []
    rw [lookup_cons_ne k2 k v [] h]
  | cons kv rest ih =>
    obtain ⟨k3, v3⟩ := kv
    by_cases h3 : k3 = k
    · subst h3
      rw [alist_set, if_pos rfl, lookup_cons_ne k2 k3 v _ h,
        lookup_cons_ne k2 k3 v3 _ h]
    · rw [alist_set, if_neg h3]
      by_cases h2 : k2 = k3
      · subst h2
        rw [lookup_cons_eq, lookup_cons_eq]
      · rw [lookup_cons_ne k2 k3 v3 _ h2, lookup_cons_ne k2 k3 v3 _ h2]
        exact ih

/-- Accumulator specification of the format_values loop: fields with no
selected schema entry keep their accumulator binding, and every selected
schema field is bound to its successfully formatted value. -/
theorem format_values_go_spec (ext : Ext) (row : Row) :
    ∀ (props : List (String × FieldSchema)) (acc rec : Row),
      (props.map Prod.fst).Nodup →
      format_values_go ext row props acc = Except.ok rec →
      (∀ f, (∀ fs, (f, fs) ∈ props → fs.selected = false) →
        List.lookup f rec = List.lookup f acc) ∧
      (∀ f fs, (f, fs) ∈ props → fs.selected = true →
        ∃ v, format_value ext (rowGet row f) fs = Except.ok v ∧
          List.lookup f rec = some v) := by
  intro props
  induction props with
  | nil =>
    intro acc rec _ hok
    simp only [format_values_go] at hok
    cases hok
    exact ⟨fun f _ => rfl, fun f fs hmem => by simp at hmem⟩
  | cons p rest ih =>
    intro acc rec hnd hok
    obtain ⟨g, gs⟩ := p
    have hndc : (g :: rest.map Prod.fst).Nodup := by
      simpa using hnd
    have hnd2 : (rest.map Prod.fst).Nodup := hndc.of_cons
    have hgout : g ∉ rest.map Prod.fst := (List.nodup_cons.mp hndc).1
    cases hsel : gs.selected with
    | false =>
      have hok2 : format_values_go ext row rest acc = Except.ok rec := by
        simpa [format_values_go, hsel] using hok
      obtain ⟨part1, part2⟩ := ih acc rec hnd2 hok2
      refine ⟨?_, ?_⟩
      · intro f hall
        exact part1 f (fun fs hmem => hall fs (List.mem_cons_of_mem _ hmem))
      · intro f fs hmem hfsel
        rcases List.mem_cons.mp hmem with heq | hmem2
        · exfalso
          obtain ⟨hf, hfs⟩ := Prod.mk.injEq .. ▸ heq
          rw [hfs] at hfsel
          rw [hsel] at hfsel
          exact Bool.false_ne_true hfsel
        · exact part2 f fs hmem2 hfsel
    | true =>
      cases hfv : format_value ext (rowGet row g) gs with
      | error e =>
        exfalso
        simp [format_values_go, hsel, hfv] at hok
      | ok v =>
        have hok2 : format_values_go ext row rest (alist_set acc g v) =
            Except.ok rec := by
          simpa [format_values_go, hsel, hfv] using hok
        obtain ⟨part1, part2⟩ := ih (alist_set acc g v) rec hnd2 hok2
        refine ⟨?_, ?_⟩
        · intro f hall
          have hfg : f ≠ g := by
            intro hfg
            subst hfg
            have := hall gs (List.mem_cons_self _ _)
            rw [hsel] at this
            exact Bool.true_eq_false ▸ Bool.false_ne_true this.symm
          have := part1 f
            (fun fs hmem => hall fs (List.mem_cons_of_mem _ hmem))
          rw [this, alist_set_lookup_ne acc g f v hfg]
        · intro f fs hmem hfsel
          rcases List.mem_cons.mp hmem with heq | hmem2
          · have hf : f = g := congrArg Prod.fst heq
            have hfs : fs = gs := congrArg Prod.snd heq
            subst hf
            subst hfs
            refine ⟨v, hfv, ?_⟩
            have hvac : ∀ fs2, (f, fs2) ∈ rest → fs2.selected = false := by
              intro fs2 hmem3
              exact absurd (List.mem_map_of_mem Prod.fst hmem3) hgout
            rw [part1 f hvac, alist_set_lookup_self]
          · exact part2 f fs hmem2 hfsel

/-- C10: a record produced by format_values binds exactly the selected
fields of the schema of the stream; unselected fields never appear, and a
selected field absent from the raw row is bound to None. -/
theorem format_values_exactly_selected_fields
    (ext : Ext) (stream : Stream) (row rec : Row)
    (hnd : (stream.schema.properties.map Prod.fst).Nodup)
    (hok : format_values ext stream row = Except.ok rec) :
    (∀ f, (List.lookup f rec).isSome = true ↔
      ∃ fs, (f, fs) ∈ stream.schema.properties ∧ fs.selected = true) ∧
    (∀ f fs, (f, fs) ∈ stream.schema.properties → fs.selected = true →
      List.lookup f row = none → List.lookup f rec = some Value.null) := by
  obtain ⟨part1, part2⟩ :=
    format_values_go_spec ext row stream.schema.properties [] rec hnd hok
  constructor
  · intro f
    constructor
    · intro hsome
      by_contra hnone
      push_neg at hnone
      have hall : ∀ fs, (f, fs) ∈ stream.schema.properties →
          fs.selected = false := by
        intro fs hmem
        cases hb : fs.selected with
        | false => rfl
        | true => exact absurd hb (hnone fs hmem)
      rw [part1 f hall] at hsome
      simp [List.lookup] at hsome
    · intro hex
      obtain ⟨fs, hmem, hfsel⟩ := hex
      obtain ⟨v, _, hlook⟩ := part2 f fs hmem hfsel
      simp [hlook]
  · intro f fs hmem hfsel habs
    obtain ⟨v, hfv, hlook⟩ := part2 f fs hmem hfsel
    have hget : rowGet row f = Value.null := by
      simp [rowGet, habs]
    rw [hget] at hfv
    have hnullv : format_value ext Value.null fs = Except.ok Value.null := by
      simp [format_value]
    rw [hnullv] at hfv
    cases hfv
    exact hlook

/-- Unselected string field. -/
def fsUnsel : FieldSchema := { fsStr with selected := false }

/-- Stream fixture for the C10 witness: field a unselected, field b
selected. -/
def streamW : Stream :=
  { stream := "w", replication_key := "",
    schema := { selected := true,
                properties := [("a", fsUnsel), ("b", fsStr)] } }

/-- Witness for C10: the record of a row holding only the unselected field
a has exactly the selected field b, bound to None because b is absent. -/
theorem format_values_selected_witness :
    List.lookup "b" [("b", Value.null)] = some Value.null ∧
      ((List.lookup "a" [("b", Value.null)]).isSome = true ↔
        ∃ fs, ("a", fs) ∈ streamW.schema.properties ∧
          fs.selected = true) :=
  ⟨(format_values_exactly_selected_fields (extFix 100) streamW
      [("a", Value.str "x")] [("b", Value.null)] (by decide) rfl).2
      "b" fsStr (by decide) rfl rfl,
   (format_values_exactly_selected_fields (extFix 100) streamW
      [("a", Value.str "x")] [("b", Value.null)] (by decide) rfl).1 "a"⟩

/-- Code-point comparison of a character list with itself is false. -/
theorem listCharLt_irrefl : ∀ l : List Char, listCharLt l l = false := by
  intro l
  induction l with
  | nil => rfl
  | cons a as ih =>
    simp [listCharLt, Nat.lt_irrefl, ih]

/-- Python never reports a value strictly below itself. -/
theorem ltv_irrefl : ∀ v : Value, Value.ltv v v ≠ some true := by
  intro v
  cases v with
  | null => simp [Value.ltv]
  | str s => simp [Value.ltv, strLt, listCharLt_irrefl]
  | int n => simp [Value.ltv]
  | num q => simp [Value.ltv]
  | bool b => cases b <;> simp [Value.ltv]

/-- Initial parameter dict of sync_paginated for a given bookmarked paging
token, sync.py lines 229-237. -/
def paginated_init_params (npt : Value) : Params :=
  if npt.truthy then
    alist_set [("batchSize", Value.int 300)] "nextPageToken" npt
  else [("batchSize", Value.int 300)]

/-- Run equation of sync_paginated: the run is the paging loop from the
bookmarked cursor and token, followed on success by clearing the token
bookmark, writing max_bookmark as the cursor and persisting. -/
theorem sync_paginated_run (ext : Ext) (client : Client) (stream : Stream)
    (fuel : Nat) (st : St) :
    sync_paginated ext client stream fuel st =
      (match sync_paginated_loop ext client stream
          (st.tap.bookmarks stream.stream stream.replication_key)
          ("rest/v1/" ++ stream.stream ++ ".json") fuel
          (paginated_init_params
            (st.tap.bookmarks stream.stream "next_page_token")) 0
          (st.tap.bookmarks stream.stream stream.replication_key) st with
       | (Except.error e, st2) => (Except.error e, st2)
       | (Except.ok cm, st2) =>
         (Except.ok cm.1,
          { tap := (st2.tap.setBk stream.stream "next_page_token"
              Value.null).setBk stream.stream stream.replication_key cm.2,
            trace := st2.trace ++
              [Event.writeState ((st2.tap.setBk stream.stream
                "next_page_token" Value.null).setBk stream.stream
                stream.replication_key cm.2)] })) := by
  rcases h : sync_paginated_loop ext client stream
      (st.tap.bookmarks stream.stream stream.replication_key)
      ("rest/v1/" ++ stream.stream ++ ".json") fuel
      (paginated_init_params
        (st.tap.bookmarks stream.stream "next_page_token")) 0
      (st.tap.bookmarks stream.stream stream.replication_key) st
    with ⟨r, st2⟩
  cases r with
  | error e =>
    simp only [sync_paginated, paginated_init_params, mrun_bind, mrun_pure,
      liftE, getBk, setBk, writeStateEv, emitEv, addTrace] at h ⊢
    rw [h]
  | ok cm =>
    simp only [sync_paginated, paginated_init_params, mrun_bind, mrun_pure,
      liftE, getBk, setBk, writeStateEv, emitEv, addTrace] at h ⊢
    rw [h]

/-- Offset parameter dict of sync_programs at a given offset, sync.py
lines 189-194. -/
def programs_params (sd ed : Value) (o : Nat) : Params :=
  [("maxReturn", Value.int 200), ("offset", Value.int o),
   ("earliestUpdatedAt", sd), ("latestUpdatedAt", ed)]

/-- Run equation of sync_programs: the run is the offset paging loop from
the bookmarked cursor, followed on success by writing the query end as the
cursor and persisting. -/
theorem sync_programs_run (ext : Ext) (client : Client) (stream : Stream)
    (fuel : Nat) (st : St) :
    sync_programs ext client stream fuel st =
      (match sync_programs_loop ext client stream
          (st.tap.bookmarks "programs" "updatedAt") fuel
          (programs_params (st.tap.bookmarks "programs" "updatedAt")
            (Value.str (ext.isoOfPen ext.utcnow)) 0) 0 st with
       | (Except.error e, st2) => (Except.error e, st2)
       | (Except.ok m, st2) =>
         (Except.ok m,
          { tap := st2.tap.setBk "programs" "updatedAt"
              (Value.str (ext.isoOfPen ext.utcnow)),
            trace := st2.trace ++
              [Event.writeState (st2.tap.setBk "programs" "updatedAt"
                (Value.str (ext.isoOfPen ext.utcnow)))] })) := by
  rcases h : sync_programs_loop ext client stream
      (st.tap.bookmarks "programs" "updatedAt") fuel
      (programs_params (st.tap.bookmarks "programs" "updatedAt")
        (Value.str (ext.isoOfPen ext.utcnow)) 0) 0 st
    with ⟨r, st2⟩
  cases r with
  | error e =>
    simp only [sync_programs, programs_params, mrun_bind, mrun_pure,
      liftE, getBk, setBk, writeStateEv, emitEv, addTrace,
      Nat.cast_zero] at h ⊢
    rw [h]
  | ok m =>
    simp only [sync_programs, programs_params, mrun_bind, mrun_pure,
      liftE, getBk, setBk, writeStateEv, emitEv, addTrace,
      Nat.cast_zero] at h ⊢
    rw [h]

/-- Run equation of sync_activities: parse the bookmarked cursor, then run
the export loop against the frozen clock. -/
theorem sync_activities_run (ext : Ext) (client : Client) (stream : Stream)
    (fuel : Nat) (st : St) :
    sync_activities ext client stream fuel st =
      (match parse_pendulum ext
          (st.tap.bookmarks stream.stream stream.replication_key) with
       | Except.error e => (Except.error e, st)
       | Except.ok sp =>
         sync_activities_loop ext client stream ext.utcnow fuel sp 0 st) := by
  cases h : parse_pendulum ext
      (st.tap.bookmarks stream.stream stream.replication_key) with
  | error e =>
    simp [sync_activities, mrun_bind, liftE, getBk, h]
  | ok sp =>
    simp [sync_activities, mrun_bind, liftE, getBk, h]

/-- Trace appends keep the tap state. -/
theorem addTrace_tap (st : St) (evs : List Event) :
    (addTrace st evs).tap = st.tap := rfl

/-- Row loop of sync_paginated: on success the running maximum comes back
unchanged whenever it starts equal to the state bookmark (which the row
loop never writes), because the re-read bookmark never exceeds it. -/
theorem paginated_rows_mb (ext : Ext) (stream : Stream) (sd : Value) :
    ∀ (rows : List Row) (count : Nat) (mb : Value) (st : St) (n : Nat)
      (mb2 : Value) (st2 : St),
      st.tap.bookmarks stream.stream stream.replication_key = mb →
      paginated_rows ext stream sd rows count mb st =
        (Except.ok (n, mb2), st2) →
      mb2 = mb ∧ st2.tap = st.tap := by
  intro rows
  induction rows with
  | nil =>
    intro count mb st n mb2 st2 hbk hrun
    simp only [paginated_rows, mrun_pure] at hrun
    injection hrun with h1 h2
    injection h1 with h3
    injection h3 with h4 h5
    exact ⟨h5.symm, by rw [← h2]⟩
  | cons row rest ih =>
    intro count mb st n mb2 st2 hbk hrun
    simp only [paginated_rows, mrun_bind, mrun_pure, liftE, getBk,
      emitEv] at hrun
    cases hfmt : format_values ext stream row with
    | error e => simp [hfmt] at hrun
    | ok record =>
      simp only [hfmt] at hrun
      cases hgi : record_getitem record stream.replication_key with
      | error e => simp [hgi] at hrun
      | ok v =>
        simp only [hgi] at hrun
        cases hge : value_ge v sd with
        | error e => simp [hge] at hrun
        | ok ge =>
          simp only [hge] at hrun
          cases ge with
          | false =>
            simp only [Bool.false_eq_true, if_false] at hrun
            exact ih count mb st n mb2 st2 hbk hrun
          | true =>
            simp only [if_true, mrun_bind, mrun_pure, liftE, getBk,
              emitEv, addTrace_tap, hbk] at hrun
            cases hgt : value_gt mb mb with
            | error e => simp [hgt] at hrun
            | ok gt =>
              simp only [hgt, ite_self] at hrun
              obtain ⟨hmb, htap⟩ := ih (count + 1) mb
                (addTrace st [Event.writeRecord stream.stream record])
                n mb2 st2 (by rw [addTrace_tap, hbk]) hrun
              exact ⟨hmb, by rw [htap, addTrace_tap]⟩

/-- Paging loop of sync_paginated: on success max_bookmark comes back
equal to the start cursor and the replication bookmark in state is
untouched, provided the replication key is not the token key. -/
theorem sync_paginated_loop_bookmark (ext : Ext) (client : Client)
    (stream : Stream) (sd : Value) (endpoint : String)
    (hrk : stream.replication_key ≠ "next_page_token") :
    ∀ (fuel : Nat) (params : Params) (count : Nat) (mb : Value) (st : St)
      (cm : Nat × Value) (st2 : St),
      st.tap.bookmarks stream.stream stream.replication_key = mb →
      sync_paginated_loop ext client stream sd endpoint fuel params count
        mb st = (Except.ok cm, st2) →
      cm.2 = mb ∧
        st2.tap.bookmarks stream.stream stream.replication_key = mb := by
  intro fuel
  induction fuel with
  | zero =>
    intro params count mb st cm st2 hbk hrun
    simp [sync_paginated_loop, throwE] at hrun
  | succ f ih =>
    intro params count mb st cm st2 hbk hrun
    simp only [sync_paginated_loop, mrun_bind, mrun_pure, liftE,
      emitEv] at hrun
    cases hres : (client.request "GET" endpoint stream.stream
        params).result with
    | none => simp [resp_result, hres] at hrun
    | some rows =>
      simp only [resp_result, hres] at hrun
      rcases hrows : paginated_rows ext stream sd rows count mb
          (addTrace st [Event.request "GET" endpoint stream.stream params])
        with ⟨r, stR⟩
      simp only [hrows] at hrun
      cases r with
      | error e => simp at hrun
      | ok cmR =>
        obtain ⟨nR, mbR⟩ := cmR
        obtain ⟨hmb, htap⟩ := paginated_rows_mb ext stream sd rows count mb
          (addTrace st [Event.request "GET" endpoint stream.stream params])
          nR mbR stR (by rw [addTrace_tap, hbk]) hrows
        have htapR : stR.tap = st.tap := by rw [htap, addTrace_tap]
        cases hnpt : (client.request "GET" endpoint stream.stream
            params).nextPageToken with
        | none =>
          simp only [hnpt, mrun_pure] at hrun
          injection hrun with h1 h2
          injection h1 with h3
          refine ⟨by rw [← h3, hmb], ?_⟩
          rw [← h2, htapR, hbk]
        | some tok =>
          simp only [hnpt, mrun_bind, mrun_pure, setBk, writeStateEv,
            addTrace_tap] at hrun
          rw [hmb] at hrun
          refine ih (alist_set params "nextPageToken" (Value.str tok))
            nR mb _ cm st2 ?_ hrun
          simp only [addTrace_tap]
          simp only [TapState.setBk]
          simp [hrk, htapR, hbk]

/-- Completed sync_paginated runs write back the starting cursor as the
replication bookmark. -/
theorem paginated_final_bookmark (ext : Ext) (client : Client)
    (stream : Stream) (fuel : Nat) (st : St) (n : Nat)
    (hrk : stream.replication_key ≠ "next_page_token")
    (hok : (sync_paginated ext client stream fuel st).1 = Except.ok n) :
    (sync_paginated ext client stream fuel
        st).2.tap.bookmarks stream.stream stream.replication_key =
      st.tap.bookmarks stream.stream stream.replication_key := by
  rw [sync_paginated_run] at hok ⊢
  rcases hloop : sync_paginated_loop ext client stream
      (st.tap.bookmarks stream.stream stream.replication_key)
      ("rest/v1/" ++ stream.stream ++ ".json") fuel
      (paginated_init_params
        (st.tap.bookmarks stream.stream "next_page_token")) 0
      (st.tap.bookmarks stream.stream stream.replication_key) st
    with ⟨r, stR⟩
  rw [hloop] at hok
  cases r with
  | error e => exact Except.noConfusion hok
  | ok cm =>
    obtain ⟨hmb, _⟩ := sync_paginated_loop_bookmark ext client stream
      (st.tap.bookmarks stream.stream stream.replication_key)
      ("rest/v1/" ++ stream.stream ++ ".json") hrk fuel
      (paginated_init_params
        (st.tap.bookmarks stream.stream "next_page_token")) 0
      (st.tap.bookmarks stream.stream stream.replication_key) st cm stR
      rfl hloop
    exact (setBk_get_self _ _ _ _).trans hmb

/-- Completed sync_programs runs write the render of the frozen clock as
the replication bookmark. -/
theorem programs_final_bookmark (ext : Ext) (client : Client)
    (stream : Stream) (fuel : Nat) (st : St) (n : Nat)
    (hok : (sync_programs ext client stream fuel st).1 = Except.ok n) :
    (sync_programs ext client stream fuel
        st).2.tap.bookmarks "programs" "updatedAt" =
      Value.str (ext.isoOfPen ext.utcnow) := by
  rw [sync_programs_run] at hok ⊢
  rcases hloop : sync_programs_loop ext client stream
      (st.tap.bookmarks "programs" "updatedAt") fuel
      (programs_params (st.tap.bookmarks "programs" "updatedAt")
        (Value.str (ext.isoOfPen ext.utcnow)) 0) 0 st
    with ⟨r, stR⟩
  rw [hloop] at hok
  cases r with
  | error e => exact Except.noConfusion hok
  | ok m => exact setBk_get_self _ _ _ _

/-- handle_activity_line never writes a bookmark: the tap state is
untouched in every outcome. -/
theorem handle_activity_line_tap (ext : Ext) (stream : Stream)
    (headers line : List String) (st : St) :
    ((handle_activity_line ext stream headers line) st).2.tap = st.tap := by
  simp only [handle_activity_line, mrun_bind, mrun_pure, liftE, getBk,
    emitEv]
  cases hf : flatten_activity ext (dict_zip headers (parse_csv_line line))
      stream.schema with
  | error e => simp [hf]
  | ok flat =>
    simp only [hf]
    cases hfmt : format_values ext stream flat with
    | error e => simp [hfmt]
    | ok record =>
      simp only [hfmt]
      cases hgi : record_getitem record stream.replication_key with
      | error e => simp [hgi]
      | ok v =>
        simp only [hgi]
        cases hlt : value_lt v
            (st.tap.bookmarks stream.stream stream.replication_key) with
        | error e => simp [hlt]
        | ok b =>
          simp only [hlt]
          cases b <;> simp [mrun_bind, mrun_pure, emitEv, addTrace_tap]

/-- The activity line fold never writes a bookmark either. -/
theorem activities_lines_tap (ext : Ext) (stream : Stream)
    (headers : List String) :
    ∀ (lines : List (List String)) (count : Nat) (st : St),
      ((activities_lines ext stream headers lines count) st).2.tap =
        st.tap := by
  intro lines
  induction lines with
  | nil => intro count st; rfl
  | cons line rest ih =>
    intro count st
    simp only [activities_lines, mrun_bind]
    rcases hh : handle_activity_line ext stream headers line st with ⟨r, stH⟩
    have htap : stH.tap = st.tap := by
      have := handle_activity_line_tap ext stream headers line st
      rw [hh] at this
      exact this
    cases r with
    | error e => exact htap
    | ok n2 => exact (ih (count + n2) stH).trans htap

/-- With no truthy export_id bookmarked, get_or_create_export always
raises (ValueError from the underscore unpacking or the NameError of
line 107) without touching the state. -/
theorem get_or_create_export_falsy (stream : Stream) (st : St)
    (h : (st.tap.bookmarks stream.stream "export_id").truthy = false) :
    ∃ e, get_or_create_export stream st = (Except.error e, st) := by
  rcases hsp : str_split_underscore stream.stream with _ | ⟨a, t1⟩
  · exact ⟨Err.valueError, by simp [get_or_create_export, mrun_bind,
      mrun_pure, getBk, liftE, throwE, h, hsp]⟩
  · rcases t1 with _ | ⟨b, t2⟩
    · exact ⟨Err.valueError, by simp [get_or_create_export, mrun_bind,
        mrun_pure, getBk, liftE, throwE, h, hsp]⟩
    · rcases t2 with _ | ⟨c, t3⟩
      · exact ⟨Err.nameError "start_pen", by simp [get_or_create_export,
          mrun_bind, mrun_pure, getBk, liftE, throwE, h, hsp]⟩
      · exact ⟨Err.valueError, by simp [get_or_create_export, mrun_bind,
          mrun_pure, getBk, liftE, throwE, h, hsp]⟩

/-- With no truthy export_id bookmarked, a successful export loop cannot
have entered its body: it returns the running count with the state
untouched. -/
theorem sync_activities_loop_no_export (ext : Ext) (client : Client)
    (stream : Stream) (js : Nat) (fuel sp count : Nat) (st : St) (n : Nat)
    (st2 : St)
    (hfalsy : (st.tap.bookmarks stream.stream "export_id").truthy = false)
    (hrun : sync_activities_loop ext client stream js fuel sp count st =
      (Except.ok n, st2)) :
    st2 = st ∧ n = count := by
  cases fuel with
  | zero => simp [sync_activities_loop, throwE] at hrun
  | succ f =>
    by_cases hsp : sp < js
    · obtain ⟨e, hge⟩ := get_or_create_export_falsy stream st hfalsy
      simp only [sync_activities_loop] at hrun
      rw [if_pos hsp] at hrun
      simp only [mrun_bind] at hrun
      rw [hge] at hrun
      exact Except.noConfusion (congrArg Prod.fst hrun)
    · simp only [sync_activities_loop] at hrun
      rw [if_neg hsp] at hrun
      simp only [mrun_pure] at hrun
      injection hrun with h1 h2
      injection h1 with h3
      exact ⟨h2.symm, h3.symm⟩

/-- A successful export loop leaves the replication bookmark either
untouched or equal to the export_end bookmark that was in state at entry:
an entered iteration can only complete by bookmarking export_end as the
cursor, and any further iteration fails on the cleared export_id (the
NameError of sync.py line 107). -/
theorem sync_activities_loop_final (ext : Ext) (client : Client)
    (stream : Stream) (js : Nat)
    (hrk1 : stream.replication_key ≠ "export_id")
    (hrk2 : stream.replication_key ≠ "export_end")
    (fuel sp count : Nat) (st : St) (n : Nat) (st2 : St)
    (hrun : sync_activities_loop ext client stream js fuel sp count st =
      (Except.ok n, st2)) :
    st2.tap.bookmarks stream.stream stream.replication_key =
        st.tap.bookmarks stream.stream stream.replication_key ∨
      st2.tap.bookmarks stream.stream stream.replication_key =
        st.tap.bookmarks stream.stream "export_end" := by
  cases fuel with
  | zero => simp [sync_activities_loop, throwE] at hrun
  | succ f =>
    by_cases hsp : sp < js
    · simp only [sync_activities_loop] at hrun
      rw [if_pos hsp] at hrun
      simp only [mrun_bind] at hrun
      cases htr : (st.tap.bookmarks stream.stream "export_id").truthy with
      | false =>
        obtain ⟨e, hge⟩ := get_or_create_export_falsy stream st htr
        rw [hge] at hrun
        exact Except.noConfusion (congrArg Prod.fst hrun)
      | true =>
        have hge : get_or_create_export stream st =
            (Except.ok (st.tap.bookmarks stream.stream "export_id"),
             st) := by
          simp [get_or_create_export, mrun_bind, mrun_pure, getBk, htr]
        rw [hge] at hrun
        simp only [mrun_bind, mrun_pure, emitEv] at hrun
        cases hw : client.waitForExport "activities"
            (st.tap.bookmarks stream.stream "export_id") with
        | false =>
          rw [hw] at hrun
          exact Except.noConfusion (congrArg Prod.fst hrun)
        | true =>
          rw [hw, if_neg (show ¬(true = false) by simp)] at hrun
          simp only [mrun_bind, mrun_pure, emitEv] at hrun
          cases hlines : client.streamExport "activities"
              (st.tap.bookmarks stream.stream "export_id") with
          | nil =>
            rw [hlines] at hrun
            exact Except.noConfusion (congrArg Prod.fst hrun)
          | cons headerLine rest =>
            rw [hlines] at hrun
            simp only [mrun_bind, mrun_pure] at hrun
            rcases hal : activities_lines ext stream
                (parse_csv_line headerLine) rest 0
                (addTrace (addTrace st [Event.waitExport "activities"
                  (st.tap.bookmarks stream.stream "export_id")])
                  [Event.streamExportCall "activities"
                    (st.tap.bookmarks stream.stream "export_id")])
              with ⟨rl, stL⟩
            rw [hal] at hrun
            have hLtap : stL.tap = st.tap := by
              have := activities_lines_tap ext stream
                (parse_csv_line headerLine) rest 0
                (addTrace (addTrace st [Event.waitExport "activities"
                  (st.tap.bookmarks stream.stream "export_id")])
                  [Event.streamExportCall "activities"
                    (st.tap.bookmarks stream.stream "export_id")])
              rw [hal] at this
              simpa [addTrace_tap] using this
            cases rl with
            | error e => exact Except.noConfusion (congrArg Prod.fst hrun)
            | ok cnt =>
              simp only [mrun_bind, mrun_pure, getBk,
                update_activity_state, setBk, writeStateEv, liftE] at hrun
              cases het : (stL.tap.bookmarks stream.stream
                  "export_end").truthy with
              | true =>
                rw [het, if_pos rfl] at hrun
                simp only [mrun_bind, mrun_pure, setBk,
                  writeStateEv] at hrun
                cases hpp : parse_pendulum ext
                    (stL.tap.bookmarks stream.stream "export_end") with
                | error e =>
                  rw [hpp] at hrun
                  exact Except.noConfusion (congrArg Prod.fst hrun)
                | ok sp2 =>
                  rw [hpp] at hrun
                  obtain ⟨hst2, -⟩ := sync_activities_loop_no_export ext
                    client stream js f sp2 (count + cnt) _ n st2
                    (by simp [addTrace_tap, TapState.setBk, truthy_null,
                      Ne.symm hrk1]) hrun
                  right
                  rw [hst2]
                  simp only [addTrace_tap]
                  rw [setBk_get_self, hLtap]
              | false =>
                rw [het] at hrun
                rw [if_neg (show ¬(false = true) by simp)] at hrun
                simp only [mrun_bind, mrun_pure, writeStateEv] at hrun
                cases hpp : parse_pendulum ext
                    (stL.tap.bookmarks stream.stream "export_end") with
                | error e =>
                  rw [hpp] at hrun
                  exact Except.noConfusion (congrArg Prod.fst hrun)
                | ok sp2 =>
                  rw [hpp] at hrun
                  obtain ⟨hst2, -⟩ := sync_activities_loop_no_export ext
                    client stream js f sp2 (count + cnt) _ n st2
                    (by simp [addTrace_tap, TapState.setBk, truthy_null,
                      Ne.symm hrk1]) hrun
                  left
                  rw [hst2]
                  simp only [addTrace_tap]
                  rw [setBk_get_ne _ _ _ _ _ _ (fun hc => hrk2 hc.2),
                    setBk_get_ne _ _ _ _ _ _ (fun hc => hrk1 hc.2), hLtap]
    · simp only [sync_activities_loop] at hrun
      rw [if_neg hsp] at hrun
      simp only [mrun_pure] at hrun
      injection hrun with h1 h2
      left
      rw [← h2]

/-- Completed sync_activities runs leave the cursor untouched or move it
to the export_end bookmark seen at entry. -/
theorem activities_final_bookmark (ext : Ext) (client : Client)
    (stream : Stream) (fuel : Nat) (st : St) (n : Nat)
    (hrk1 : stream.replication_key ≠ "export_id")
    (hrk2 : stream.replication_key ≠ "export_end")
    (hok : (sync_activities ext client stream fuel st).1 = Except.ok n) :
    (sync_activities ext client stream fuel
        st).2.tap.bookmarks stream.stream stream.replication_key =
        st.tap.bookmarks stream.stream stream.replication_key ∨
      (sync_activities ext client stream fuel
        st).2.tap.bookmarks stream.stream stream.replication_key =
        st.tap.bookmarks stream.stream "export_end" := by
  rw [sync_activities_run] at hok ⊢
  cases hpp : parse_pendulum ext
      (st.tap.bookmarks stream.stream stream.replication_key) with
  | error e =>
    rw [hpp] at hok
    exact Except.noConfusion hok
  | ok sp =>
    rw [hpp] at hok
    replace hok : (sync_activities_loop ext client stream ext.utcnow fuel
        sp 0 st).1 = Except.ok n := hok
    show (sync_activities_loop ext client stream ext.utcnow fuel sp 0
          st).2.tap.bookmarks stream.stream stream.replication_key =
        st.tap.bookmarks stream.stream stream.replication_key ∨
      (sync_activities_loop ext client stream ext.utcnow fuel sp 0
          st).2.tap.bookmarks stream.stream stream.replication_key =
        st.tap.bookmarks stream.stream "export_end"
    rcases hloop : sync_activities_loop ext client stream ext.utcnow fuel
        sp 0 st with ⟨r, st2⟩
    rw [hloop] at hok
    cases r with
    | error e => exact Except.noConfusion hok
    | ok m =>
      exact sync_activities_loop_final ext client stream ext.utcnow hrk1
        hrk2 fuel sp 0 st m st2 hloop

/-- C7 amended: within a completed strategy invocation the replication
cursor never moves strictly backwards, under these conditions: for
sync_paginated (replication key distinct from the token bookmark key) the
final cursor equals the starting cursor; for sync_programs the final
cursor is the render of the current time, hence not below a starting
cursor that is not above the current time; for sync_activities
(replication key distinct from the export bookmark keys) the final cursor
is the starting cursor or the bookmarked export_end, hence not below a
starting cursor that the bookmarked export_end is not below. -/
theorem cursor_non_decreasing_amended :
    (∀ (ext : Ext) (client : Client) (stream : Stream) (fuel : Nat)
        (st : St) (n : Nat),
      stream.replication_key ≠ "next_page_token" →
      (sync_paginated ext client stream fuel st).1 = Except.ok n →
      (sync_paginated ext client stream fuel
          st).2.tap.bookmarks stream.stream stream.replication_key =
        st.tap.bookmarks stream.stream stream.replication_key) ∧
    (∀ (ext : Ext) (client : Client) (stream : Stream) (fuel : Nat)
        (st : St) (n : Nat),
      Value.ltv (Value.str (ext.isoOfPen ext.utcnow))
          (st.tap.bookmarks "programs" "updatedAt") ≠ some true →
      (sync_programs ext client stream fuel st).1 = Except.ok n →
      Value.ltv ((sync_programs ext client stream fuel
            st).2.tap.bookmarks "programs" "updatedAt")
          (st.tap.bookmarks "programs" "updatedAt") ≠ some true) ∧
    (∀ (ext : Ext) (client : Client) (stream : Stream) (fuel : Nat)
        (st : St) (n : Nat),
      stream.replication_key ≠ "export_id" →
      stream.replication_key ≠ "export_end" →
      Value.ltv (st.tap.bookmarks stream.stream "export_end")
          (st.tap.bookmarks stream.stream stream.replication_key) ≠
        some true →
      (sync_activities ext client stream fuel st).1 = Except.ok n →
      Value.ltv ((sync_activities ext client stream fuel
            st).2.tap.bookmarks stream.stream stream.replication_key)
          (st.tap.bookmarks stream.stream stream.replication_key) ≠
        some true) := by
  refine ⟨?_, ?_, ?_⟩
  · intro ext client stream fuel st n hrk hok
    exact paginated_final_bookmark ext client stream fuel st n hrk hok
  · intro ext client stream fuel st n hle hok
    rw [programs_final_bookmark ext client stream fuel st n hok]
    exact hle
  · intro ext client stream fuel st n hrk1 hrk2 hee hok
    rcases activities_final_bookmark ext client stream fuel st n hrk1 hrk2
        hok with h | h
    · rw [h]
      exact ltv_irrefl _
    · rw [h]
      exact hee

/-- Client fixture whose first programs page already carries the
no-asset sentinel. -/
def clientSent : Client :=
  { clientTrivial with
      request := fun _ _ _ _ =>
        { result := some [], warnings := some [NO_ASSET_MSG],
          nextPageToken := none } }

/-- Witness for the amended C7 at concrete completed runs of the three
strategies. -/
theorem cursor_non_decreasing_witness :
    (sync_paginated (extFix 100) clientTrivial streamCamp 2
        (stOf (tap0.setBk "campaigns" "updatedAt"
          (Value.str "2020-01-01T00:00:00+00:00")))).2.tap.bookmarks
        "campaigns" "updatedAt" =
      (stOf (tap0.setBk "campaigns" "updatedAt"
        (Value.str "2020-01-01T00:00:00+00:00"))).tap.bookmarks
        "campaigns" "updatedAt" ∧
    Value.ltv ((sync_programs (extFix 5616000) clientSent streamProgs 2
        (stOf (tap0.setBk "programs" "updatedAt"
          (Value.str "2020-01-01T00:00:00+00:00")))).2.tap.bookmarks
        "programs" "updatedAt")
      ((stOf (tap0.setBk "programs" "updatedAt"
        (Value.str "2020-01-01T00:00:00+00:00"))).tap.bookmarks
        "programs" "updatedAt") ≠ some true ∧
    Value.ltv ((sync_activities (extFix 1) clientTrivial streamAct 1
        (stOf (tap0.setBk "activities_1" "activityDate"
          (Value.str "5")))).2.tap.bookmarks "activities_1"
        "activityDate")
      ((stOf (tap0.setBk "activities_1" "activityDate"
        (Value.str "5"))).tap.bookmarks "activities_1" "activityDate") ≠
      some true := by
  refine ⟨?_, ?_, ?_⟩
  · exact cursor_non_decreasing_amended.1 (extFix 100) clientTrivial
      streamCamp 2 _ 0 (by decide) rfl
  · exact cursor_non_decreasing_amended.2.1 (extFix 5616000) clientSent
      streamProgs 2 _ 0 (by decide) rfl
  · exact cursor_non_decreasing_amended.2.2 (extFix 1) clientTrivial
      streamAct 1 _ 0 (by decide) (by decide) (by decide) rfl

/-- The programs row loop issues no requests: the request projection of
the trace is unchanged by it. -/
theorem programs_rows_requests (ext : Ext) (stream : Stream) (sd : Value) :
    ∀ (rows : List Row) (st : St),
      (((programs_rows ext stream sd rows) st).2).trace.filterMap
          Event.requestView =
        st.trace.filterMap Event.requestView := by
  intro rows
  induction rows with
  | nil => intro st; rfl
  | cons row rest ih =>
    intro st
    simp only [programs_rows, mrun_bind, mrun_pure, liftE, emitEv]
    cases hfmt : format_values ext stream row with
    | error e => simp [hfmt]
    | ok record =>
      simp only [hfmt]
      cases hgi : record_getitem record "updatedAt" with
      | error e => simp [hgi]
      | ok v =>
        simp only [hgi]
        cases hge : value_ge v sd with
        | error e => simp [hge]
        | ok ge =>
          simp only [hge]
          cases ge with
          | false =>
            simp only [Bool.false_eq_true, if_false, mrun_bind, mrun_pure]
            rcases hr : programs_rows ext stream sd rest st with ⟨r2, st2⟩
            have hih := ih st
            rw [hr] at hih
            cases r2 <;> simp [hr, hih]
          | true =>
            simp only [if_true, mrun_bind, mrun_pure, emitEv]
            rcases hr : programs_rows ext stream sd rest
                (addTrace st [Event.writeRecord "programs" record])
              with ⟨r2, st2⟩
            have hih := ih
              (addTrace st [Event.writeRecord "programs" record])
            rw [hr] at hih
            cases r2 <;>
              simp [hr, hih, addTrace, List.filterMap_append,
                Event.requestView]

/-- Bumping the offset of a programs parameter dict by maxReturn. -/
theorem params_bump_programs (sd ed : Value) (o : Nat) :
    params_bump (programs_params sd ed o) =
      Except.ok (programs_params sd ed (o + 200)) := by
  have h4 : ((o : Int) + 200) = ((o + 200 : Nat) : Int) := by
    push_cast
    ring
  show Except.ok (alist_set (programs_params sd ed o) "offset"
      (Value.int ((o : Int) + 200))) = _
  rw [h4]
  rfl

/-- Shifting the offset window of the expected request list by one page. -/
theorem programs_range_shift (sd ed : Value) :
    ∀ (M k : Nat),
      (List.range (M + 1)).map (fun j =>
        (("programs", programs_params sd ed (200 * (k + j))) :
          String × Params)) =
        ("programs", programs_params sd ed (200 * k)) ::
          (List.range M).map (fun j =>
            ("programs", programs_params sd ed (200 * (k + 1 + j)))) := by
  intro M
  induction M with
  | zero => intro k; rfl
  | succ M ih =>
    intro k
    have harith : k + (M + 1) = k + 1 + M := by omega
    rw [List.range_succ, List.map_append, ih k, List.range_succ,
      List.map_append]
    simp [harith]

/-- Paging loop of sync_programs: when pages k to k+N-1 are free of the
no-asset sentinel and process without error, and page k+N carries the
sentinel, the loop succeeds after requesting exactly the offsets 200k to
200(k+N). -/
theorem sync_programs_loop_spec (ext : Ext) (client : Client)
    (stream : Stream) (sd ed : Value) :
    ∀ (N k fuel count : Nat) (st : St),
      (∀ j, j < N →
        ∃ w, (client.request "GET" "rest/asset/v1/programs.json"
            "programs" (programs_params sd ed (200 * (k + j)))).warnings =
          some w ∧
          w.contains NO_ASSET_MSG = false ∧
          ∃ rows, (client.request "GET" "rest/asset/v1/programs.json"
              "programs" (programs_params sd ed (200 * (k + j)))).result =
            some rows ∧
          ∀ st2, (((programs_rows ext stream sd rows) st2).1).isOk =
            true) →
      (∃ w, (client.request "GET" "rest/asset/v1/programs.json" "programs"
          (programs_params sd ed (200 * (k + N)))).warnings = some w ∧
        w.contains NO_ASSET_MSG = true) →
      N < fuel →
      ∃ m st2,
        sync_programs_loop ext client stream sd fuel
          (programs_params sd ed (200 * k)) count st =
          (Except.ok m, st2) ∧
        st2.trace.filterMap Event.requestView =
          st.trace.filterMap Event.requestView ++
            (List.range (N + 1)).map (fun j =>
              ("programs", programs_params sd ed (200 * (k + j)))) := by
  intro N
  induction N with
  | zero =>
    intro k fuel count st hpages hstop hfuel
    obtain ⟨f, rfl⟩ : ∃ f, fuel = f + 1 := ⟨fuel - 1, by omega⟩
    obtain ⟨w, hw, hcont⟩ := hstop
    rw [Nat.add_zero] at hw
    have hmem : NO_ASSET_MSG ∈ w := by simpa using hcont
    refine ⟨count, addTrace st [Event.request "GET"
      "rest/asset/v1/programs.json" "programs"
      (programs_params sd ed (200 * k))], ?_, ?_⟩
    · simp [sync_programs_loop, mrun_bind, mrun_pure, emitEv, liftE,
        resp_warnings, hw, hmem]
    · simp only [addTrace, List.filterMap_append]
      rfl
  | succ N ih =>
    intro k fuel count st hpages hstop hfuel
    obtain ⟨f, rfl⟩ : ∃ f, fuel = f + 1 := ⟨fuel - 1, by omega⟩
    obtain ⟨w, hw, hcont, rows, hrows, hok⟩ := hpages 0 (Nat.succ_pos N)
    rw [Nat.add_zero] at hw
    rw [Nat.add_zero] at hrows
    have hnmem : NO_ASSET_MSG ∉ w := by simpa using hcont
    rcases hrun : programs_rows ext stream sd rows
        (addTrace st [Event.request "GET" "rest/asset/v1/programs.json"
          "programs" (programs_params sd ed (200 * k))]) with ⟨r, stR⟩
    have hokr := hok (addTrace st [Event.request "GET"
      "rest/asset/v1/programs.json" "programs"
      (programs_params sd ed (200 * k))])
    rw [hrun] at hokr
    cases r with
    | error e => exact Bool.noConfusion hokr
    | ok nR =>
      have hpages2 : ∀ j, j < N →
          ∃ w, (client.request "GET" "rest/asset/v1/programs.json"
              "programs" (programs_params sd ed
                (200 * ((k + 1) + j)))).warnings = some w ∧
            w.contains NO_ASSET_MSG = false ∧
            ∃ rows, (client.request "GET" "rest/asset/v1/programs.json"
                "programs" (programs_params sd ed
                  (200 * ((k + 1) + j)))).result = some rows ∧
            ∀ st2, (((programs_rows ext stream sd rows) st2).1).isOk =
              true := by
        intro j hj
        have harith : k + (j + 1) = (k + 1) + j := by omega
        have hp := hpages (j + 1) (by omega)
        rw [harith] at hp
        exact hp
      have hstop2 : ∃ w, (client.request "GET"
          "rest/asset/v1/programs.json" "programs"
          (programs_params sd ed (200 * ((k + 1) + N)))).warnings =
            some w ∧
          w.contains NO_ASSET_MSG = true := by
        have harith : k + (N + 1) = (k + 1) + N := by omega
        obtain ⟨w2, hw2, hc2⟩ := hstop
        rw [harith] at hw2
        exact ⟨w2, hw2, hc2⟩
      obtain ⟨m, st2, hloop, hreq⟩ := ih (k + 1) f (count + nR) stR
        hpages2 hstop2 (by omega)
      have hbump : params_bump (programs_params sd ed (200 * k)) =
          Except.ok (programs_params sd ed (200 * (k + 1))) := by
        have h200 : 200 * k + 200 = 200 * (k + 1) := by ring
        rw [params_bump_programs, h200]
      refine ⟨m, st2, ?_, ?_⟩
      · simp [sync_programs_loop, mrun_bind, mrun_pure, emitEv,
          liftE, resp_warnings, resp_result, hw, hnmem, hrows, hrun,
          hbump]
        exact hloop
      · rw [hreq]
        have hreqR : stR.trace.filterMap Event.requestView =
            (addTrace st [Event.request "GET"
              "rest/asset/v1/programs.json" "programs"
              (programs_params sd ed (200 * k))]).trace.filterMap
              Event.requestView := by
          have hpr := programs_rows_requests ext stream sd rows
            (addTrace st [Event.request "GET"
              "rest/asset/v1/programs.json" "programs"
              (programs_params sd ed (200 * k))])
          rw [hrun] at hpr
          exact hpr
        rw [hreqR]
        simp only [addTrace, List.filterMap_append, List.append_assoc]
        congr 1
        rw [programs_range_shift sd ed (N + 1) k]
        rfl

/-- C9: sync_programs stops issuing requests exactly at the first
response whose warnings carry the no-asset sentinel, never by a count
heuristic: when pages 0 to N-1 are sentinel-free and their rows process
without error, and page N carries the sentinel, the run completes having
issued exactly the requests at offsets 0, 200, ..., 200N — so every
sentinel-free response is followed by another request with the offset
advanced by the page size, and the first sentinel response by none. -/
theorem sync_programs_stops_exactly_on_no_asset_sentinel
    (ext : Ext) (client : Client) (stream : Stream) (tap : TapState)
    (sd ed : Value) (N fuel : Nat)
    (hsd : tap.bookmarks "programs" "updatedAt" = sd)
    (hed : ed = Value.str (ext.isoOfPen ext.utcnow))
    (hpages : ∀ j, j < N →
      ∃ w, (client.request "GET" "rest/asset/v1/programs.json" "programs"
          (programs_params sd ed (200 * j))).warnings = some w ∧
        w.contains NO_ASSET_MSG = false ∧
        ∃ rows, (client.request "GET" "rest/asset/v1/programs.json"
            "programs" (programs_params sd ed (200 * j))).result =
          some rows ∧
        ∀ st2, (((programs_rows ext stream sd rows) st2).1).isOk = true)
    (hstop : ∃ w, (client.request "GET" "rest/asset/v1/programs.json"
        "programs" (programs_params sd ed (200 * N))).warnings = some w ∧
      w.contains NO_ASSET_MSG = true)
    (hfuel : N < fuel) :
    ∃ m, (sync_programs ext client stream fuel (stOf tap)).1 =
        Except.ok m ∧
      (sync_programs ext client stream fuel
          (stOf tap)).2.trace.filterMap Event.requestView =
        (List.range (N + 1)).map (fun j =>
          ("programs", programs_params sd ed (200 * j))) := by
  subst hsd
  subst hed
  obtain ⟨m, st2, hloop, hreq⟩ := sync_programs_loop_spec ext client
    stream (tap.bookmarks "programs" "updatedAt")
    (Value.str (ext.isoOfPen ext.utcnow)) N 0 fuel 0 (stOf tap)
    (fun j hj => by
      simp only [Nat.zero_add]
      exact hpages j hj)
    (by
      obtain ⟨w, hw, hc⟩ := hstop
      refine ⟨w, ?_, hc⟩
      simpa [Nat.zero_add] using hw)
    hfuel
  have h0 : (200 : Nat) * 0 = 0 := by norm_num
  rw [h0] at hloop
  rw [sync_programs_run]
  simp only [stOf] at hloop hreq ⊢
  rw [hloop]
  refine ⟨m, rfl, ?_⟩
  simp [hreq, stOf, List.filterMap_append, Event.requestView,
    Nat.zero_add, addTrace]

/-- Client fixture for the C9 witness: a sentinel-free empty first page at
offset 0, the no-asset sentinel on every later page. -/
def clientC9 : Client :=
  { clientTrivial with
      request := fun _ _ _ params =>
        if List.lookup "offset" params = some (Value.int 0) then
          { result := some [], warnings := some [], nextPageToken := none }
        else
          { result := some [], warnings := some [NO_ASSET_MSG],
            nextPageToken := none } }

/-- Witness for C9: one sentinel-free page followed by the sentinel page
yields exactly the requests at offsets 0 and 200. -/
theorem sync_programs_sentinel_witness :
    ∃ m, (sync_programs (extFix 100) clientC9 streamProgs 3
        (stOf tap0)).1 = Except.ok m ∧
      (sync_programs (extFix 100) clientC9 streamProgs 3
          (stOf tap0)).2.trace.filterMap Event.requestView =
        (List.range 2).map (fun j =>
          ("programs", programs_params Value.null
            (Value.str "2026-10-12T00:00:00+00:00") (200 * j))) := by
  refine sync_programs_stops_exactly_on_no_asset_sentinel (extFix 100)
    clientC9 streamProgs tap0 Value.null
    (Value.str "2026-10-12T00:00:00+00:00") 1 3 rfl rfl ?_ ?_ (by decide)
  · intro j hj
    obtain rfl : j = 0 := by omega
    exact ⟨[], rfl, rfl, [], rfl, fun st2 => rfl⟩
  · exact ⟨[NO_ASSET_MSG], rfl, rfl⟩

end TapMarketo
